import Mathlib

/-!
# The "last error" register of `error_reporting.c`

A shallow embedding of `src/error_reporting.c` and of the part of the C library it
calls (`strncpy`, `snprintf`, `vsnprintf`), followed by the properties of the register.

* A `char` is a `Char`; the terminating zero byte is `NUL`.
* A `const char *` argument is the list of the bytes found at the pointer; the C string it
  denotes is `cstr p`, the bytes before the first `NUL`.
* The three static buffers are lists of bytes; a write replaces the bytes at an offset and
  leaves the others as they were.
* `long` and `int` values are integers (`Int`), a `long` having 64 bits; `size_t` values
  are naturals reduced modulo `2 ^ 64` where the C code computes with them.
* The getters return a pointer into a buffer; their value here is the C string found
  there, which is what `strcmp` in the test suite compares.
-/

namespace ErrorReporting

/-! ## C strings and buffers -/

/-- The terminating zero byte of a C string. -/
def NUL : Char := Char.ofNat 0

/-- The C string found at a pointer: the bytes before the first zero byte. -/
def cstr (p : List Char) : List Char :=
  p.takeWhile (fun c => c != NUL)

/-- The C function `strlen`. -/
def strlen (p : List Char) : Nat :=
  (cstr p).length

/-- Store `data` into `buf` from offset `off` on; the other bytes keep their value. -/
def write (buf : List Char) (off : Nat) (data : List Char) : List Char :=
  buf.take off ++ data ++ buf.drop (off + data.length)

/-- The C function `strncpy(dst, src, n)`: exactly `n` bytes of `dst` are written, the
first `min n (strlen src)` from `src` and the rest zero bytes; no terminator is added when
`src` has `n` characters or more. -/
def strncpy (dst src : List Char) (n : Nat) : List Char :=
  write dst 0 ((cstr src).take n ++ List.replicate (n - strlen src) NUL)

/-! ## Machine integers -/

/-- The largest `int`. -/
def INT_MAX : Nat := 2 ^ 31 - 1

/-- The number of values of a `size_t` (64 bits). -/
def SIZE_MODULUS : Int := 2 ^ 64

/-- The conversion of an integer value to `size_t`. -/
def to_size_t (v : Int) : Nat :=
  (v % SIZE_MODULUS).toNat

/-! ## Formatted output -/

/-- One variadic argument of a formatting call. -/
inductive Arg where
  | int (v : Int)
  | long (v : Int)
  | str (p : List Char)
  deriving DecidableEq

/-- The decimal digits of a natural number, most significant first. -/
def decimal (n : Nat) : List Char :=
  if n = 0 then [Nat.digitChar 0] else ((Nat.digits 10 n).reverse.map Nat.digitChar)

/-- The conversion `d` of a signed value under an optional `0` flag and a minimum field
width: the sign, then the digits, padded on the left to the width, with zeros after the
sign under the `0` flag and with blanks before it otherwise. -/
def fmt_int (zero : Bool) (width : Nat) (v : Int) : List Char :=
  let sign : List Char := if v < 0 then [Char.ofNat 45] else []
  let digits := decimal v.natAbs
  let pad := width - (sign.length + digits.length)
  if zero then sign ++ List.replicate pad (Char.ofNat 48) ++ digits
  else List.replicate pad (Char.ofNat 32) ++ sign ++ digits

/-- The conversion `s` under a minimum field width. -/
def fmt_str (width : Nat) (p : List Char) : List Char :=
  List.replicate (width - strlen p) (Char.ofNat 32) ++ cstr p

/-- Where the scan of a format string stands: in plain text, or inside a conversion
specification after the `%` (flags), in its field width, or after the length modifier `l`. -/
inductive Mode where
  | text
  | flags (zero : Bool)
  | width (zero : Bool) (w : Nat)
  | long (zero : Bool) (w : Nat)
  deriving DecidableEq

/-- The conversion `d` (with the length modifier `l` when `isLong`) applied to the next
argument, and the arguments left; `none` when the next argument is not of the type the
conversion expects. -/
def convert_d (zero : Bool) (w : Nat) (isLong : Bool) (args : List Arg) :
    Option (List Char × List Arg) :=
  match args with
  | Arg.int v :: rest => if isLong then none else some (fmt_int zero w v, rest)
  | Arg.long v :: rest => if isLong then some (fmt_int zero w v, rest) else none
  | _ => none

/-- The conversion `s` applied to the next argument, and the arguments left; `none` under
the `0` flag or the length modifier `l`, or when the next argument is not a string. -/
def convert_s (zero : Bool) (w : Nat) (isLong : Bool) (args : List Arg) :
    Option (List Char × List Arg) :=
  match args with
  | Arg.str p :: rest => if zero || isLong then none else some (fmt_str w p, rest)
  | _ => none

/-- The output of one conversion specifier `c` and the arguments left, or `none` when the
specifier is not one of `d` and `s` or does not match the next argument. -/
def convert (zero : Bool) (w : Nat) (isLong : Bool) (c : Char) (args : List Arg) :
    Option (List Char × List Arg) :=
  if c = Char.ofNat 100 then convert_d zero w isLong args
  else if c = Char.ofNat 115 then convert_s zero w isLong args
  else none

/-- The text a `printf`-family function produces for a format and its arguments, for the
conversions `%d`, `%ld` (each with an optional `0` flag and an optional field width), `%s`
(with an optional field width) and `%%`. The result is `none` for a format outside this
subset, for an incomplete conversion specification and for an argument that is missing or
not of the type the conversion expects; the caller below treats `none` as the negative
return value of an output error. Arguments left over at the end of the format are
ignored. -/
def expandAux : Mode → List Char → List Arg → Option (List Char)
  | Mode.text, [], _ => some []
  | Mode.text, c :: fmt, args =>
    if c = Char.ofNat 37 then expandAux (Mode.flags false) fmt args
    else (expandAux Mode.text fmt args).map (fun out => c :: out)
  | Mode.flags _, [], _ => none
  | Mode.flags zero, c :: fmt, args =>
    if c = Char.ofNat 48 then expandAux (Mode.flags true) fmt args
    else if c.isDigit then expandAux (Mode.width zero (c.toNat - 48)) fmt args
    else if c = Char.ofNat 108 then expandAux (Mode.long zero 0) fmt args
    else if c = Char.ofNat 37 then
      if zero then none else (expandAux Mode.text fmt args).map (fun out => c :: out)
    else
      match convert zero 0 false c args with
      | none => none
      | some (piece, rest) => (expandAux Mode.text fmt rest).map (fun out => piece ++ out)
  | Mode.width _ _, [], _ => none
  | Mode.width zero w, c :: fmt, args =>
    if c.isDigit then expandAux (Mode.width zero (10 * w + (c.toNat - 48))) fmt args
    else if c = Char.ofNat 108 then expandAux (Mode.long zero w) fmt args
    else
      match convert zero w false c args with
      | none => none
      | some (piece, rest) => (expandAux Mode.text fmt rest).map (fun out => piece ++ out)
  | Mode.long _ _, [], _ => none
  | Mode.long zero w, c :: fmt, args =>
    match convert zero w true c args with
    | none => none
    | some (piece, rest) => (expandAux Mode.text fmt rest).map (fun out => piece ++ out)

/-- The expansion of the C string `fmt` with the arguments `args`. -/
def expand (fmt : List Char) (args : List Arg) : Option (List Char) :=
  expandAux Mode.text (cstr fmt) args

/-- The value a `printf`-family function returns for an expansion of `n` characters: `n`
itself, or a negative value when `n` does not fit in an `int`. -/
def printf_result (n : Nat) : Int :=
  if n ≤ INT_MAX then (n : Int) else -1

/-- The C function `vsnprintf(buf + off, size, fmt, args)`, and `snprintf` with it: at
most `size` bytes are written at offset `off`, the terminating zero byte included, and the
value returned is the number of characters the whole expansion has, whether or not it was
truncated; a negative value is returned when there is no expansion or when it is longer
than `INT_MAX`. -/
def vsnprintf (buf : List Char) (off size : Nat) (fmt : List Char) (args : List Arg) :
    Int × List Char :=
  match expand fmt args with
  | none => (-1, buf)
  | some out =>
    (printf_result out.length,
     if size = 0 then buf else write buf off (out.take (size - 1) ++ [NUL]))

/-! ## The register -/

/-- The value of the macro `LAST_ERROR_MESSAGE_BUFFER_CAPACITY`. -/
def LAST_ERROR_MESSAGE_BUFFER_CAPACITY : Nat := 200

/-- The value of the macro `LAST_ERROR_FILE_BUFFER_CAPACITY`. -/
def LAST_ERROR_FILE_BUFFER_CAPACITY : Nat := 10240

/-- The value of the macro `LAST_ERROR_FUNCTION_BUFFER_CAPACITY`. -/
def LAST_ERROR_FUNCTION_BUFFER_CAPACITY : Nat := 10240

/-- The five static variables of `error_reporting.c`. -/
structure State where
  LAST_ERROR_FILE : List Char
  LAST_ERROR_MESSAGE : List Char
  LAST_ERROR_FUNCTION : List Char
  LAST_ERROR_ID : Int
  LAST_ERROR_LINE : Int
  deriving DecidableEq

/-- The static storage at program start: every byte and both numbers are zero. -/
def State.start : State where
  LAST_ERROR_FILE := List.replicate LAST_ERROR_FILE_BUFFER_CAPACITY NUL
  LAST_ERROR_MESSAGE := List.replicate LAST_ERROR_MESSAGE_BUFFER_CAPACITY NUL
  LAST_ERROR_FUNCTION := List.replicate LAST_ERROR_FUNCTION_BUFFER_CAPACITY NUL
  LAST_ERROR_ID := 0
  LAST_ERROR_LINE := 0

/-- The three buffers have the size they are declared with. -/
def State.sized (s : State) : Prop :=
  s.LAST_ERROR_FILE.length = LAST_ERROR_FILE_BUFFER_CAPACITY ∧
  s.LAST_ERROR_MESSAGE.length = LAST_ERROR_MESSAGE_BUFFER_CAPACITY ∧
  s.LAST_ERROR_FUNCTION.length = LAST_ERROR_FUNCTION_BUFFER_CAPACITY

instance (s : State) : Decidable s.sized := by
  unfold State.sized
  infer_instance

/-- The C function `last_error_init`. -/
def last_error_init (s : State) : State :=
  let s := { s with LAST_ERROR_ID := -1 }
  let s := { s with LAST_ERROR_LINE := -1 }
  let s := { s with LAST_ERROR_MESSAGE := s.LAST_ERROR_MESSAGE.set 0 NUL }
  let s := { s with LAST_ERROR_FILE := s.LAST_ERROR_FILE.set 0 NUL }
  { s with LAST_ERROR_FUNCTION := s.LAST_ERROR_FUNCTION.set 0 NUL }

/-- The C function `last_error_get_id`. -/
def last_error_get_id (s : State) : Int :=
  s.LAST_ERROR_ID

/-- The C function `last_error_get_line`. -/
def last_error_get_line (s : State) : Int :=
  s.LAST_ERROR_LINE

/-- The C function `last_error_get_message`: the C string at the pointer it returns. -/
def last_error_get_message (s : State) : List Char :=
  cstr s.LAST_ERROR_MESSAGE

/-- The C function `last_error_get_file`: the C string at the pointer it returns. -/
def last_error_get_file (s : State) : List Char :=
  cstr s.LAST_ERROR_FILE

/-- The C function `last_error_get_function`: the C string at the pointer it returns. -/
def last_error_get_function (s : State) : List Char :=
  cstr s.LAST_ERROR_FUNCTION

/-- The format of the first part of the message, as written in `last_error_set`. -/
def HEAD_FORMAT : List Char := "#%010ld [%s:%ld %s()] ".toList

/-- The C function `last_error_set`: the value it returns and the state it leaves. The
first `let s` is the six assignments that copy the identifier, the line, the file and the
function (each `strncpy` with the store of the terminator that follows it). -/
def last_error_set (s : State) (in_error_id : Int) (in_file : List Char) (in_line : Int)
    (in_function in_fmt : List Char) (args : List Arg) : Int × State :=
  let remaining_capacity : Nat := LAST_ERROR_MESSAGE_BUFFER_CAPACITY
  let s : State := { s with
    LAST_ERROR_ID := in_error_id
    LAST_ERROR_LINE := in_line
    LAST_ERROR_FILE :=
      (strncpy s.LAST_ERROR_FILE in_file LAST_ERROR_FILE_BUFFER_CAPACITY).set
        (LAST_ERROR_FILE_BUFFER_CAPACITY - 1) NUL
    LAST_ERROR_FUNCTION :=
      (strncpy s.LAST_ERROR_FUNCTION in_function LAST_ERROR_FUNCTION_BUFFER_CAPACITY).set
        (LAST_ERROR_FUNCTION_BUFFER_CAPACITY - 1) NUL }
  let r := vsnprintf s.LAST_ERROR_MESSAGE 0 remaining_capacity HEAD_FORMAT
    [Arg.long in_error_id, Arg.str in_file, Arg.long in_line, Arg.str in_function]
  let bytes_written : Int := r.1
  let s : State := { s with LAST_ERROR_MESSAGE := r.2 }
  if bytes_written < 0 ∨ to_size_t bytes_written ≥ remaining_capacity then
    (0, { s with LAST_ERROR_MESSAGE := s.LAST_ERROR_MESSAGE.set 0 NUL })
  else
    let remaining_capacity : Nat :=
      to_size_t ((remaining_capacity : Int) - (to_size_t bytes_written : Int))
    let r := vsnprintf s.LAST_ERROR_MESSAGE bytes_written.toNat remaining_capacity in_fmt args
    let bytes_written : Int := r.1
    let s : State := { s with LAST_ERROR_MESSAGE := r.2 }
    if bytes_written < 0 ∨ to_size_t bytes_written ≥ remaining_capacity then
      (0, { s with LAST_ERROR_MESSAGE := s.LAST_ERROR_MESSAGE.set 0 NUL })
    else
      (1, s)

/-! ## The text the specification describes -/

/-- The first part of the message in the words of the specification: `#`, the identifier
zero-padded to 10 digits, ` [`, the file, `:`, the line, a blank, the function, `()] `. -/
def head_text (id : Int) (file : List Char) (line : Int) (function : List Char) : List Char :=
  "#".toList ++ fmt_int true 10 id ++ " [".toList ++ cstr file ++ ":".toList ++
    fmt_int false 0 line ++ " ".toList ++ cstr function ++ "()] ".toList

/-- The state after the first six assignments of `last_error_set`. -/
def stored (s : State) (id : Int) (file : List Char) (line : Int) (function : List Char) :
    State where
  LAST_ERROR_FILE :=
    (strncpy s.LAST_ERROR_FILE file LAST_ERROR_FILE_BUFFER_CAPACITY).set
      (LAST_ERROR_FILE_BUFFER_CAPACITY - 1) NUL
  LAST_ERROR_MESSAGE := s.LAST_ERROR_MESSAGE
  LAST_ERROR_FUNCTION :=
    (strncpy s.LAST_ERROR_FUNCTION function LAST_ERROR_FUNCTION_BUFFER_CAPACITY).set
      (LAST_ERROR_FUNCTION_BUFFER_CAPACITY - 1) NUL
  LAST_ERROR_ID := id
  LAST_ERROR_LINE := line

/-! ## Sequences of calls -/

/-- One call that changes the register: `last_error_init()` or `last_error_set(...)`. -/
inductive Call where
  | init
  | set (id : Int) (file : List Char) (line : Int) (function fmt : List Char)
      (args : List Arg)

/-- The register after one call. -/
def step (s : State) : Call → State
  | Call.init => last_error_init s
  | Call.set id file line function fmt args =>
    (last_error_set s id file line function fmt args).2

/-- The register after a sequence of calls, the first call of the list first. -/
def run (s : State) (calls : List Call) : State :=
  calls.foldl step s

/-- Whether a `last_error_set` call has happened since the last `last_error_init`, in a
sequence of calls that follows a `last_error_init`. -/
def set_since_init (calls : List Call) : Bool :=
  calls.foldl (fun _ c => match c with
    | Call.init => false
    | Call.set _ _ _ _ _ _ => true) false

/-- The line argument of every `last_error_set` call of the sequence differs from -1. -/
def lines_differ_from_sentinel : List Call → Bool
  | [] => true
  | Call.init :: calls => lines_differ_from_sentinel calls
  | Call.set _ _ line _ _ _ :: calls => line != -1 && lines_differ_from_sentinel calls

/-! ## What a caller can read -/

/-- The values the five getters return in a state. -/
def observe (s : State) : Int × Int × List Char × List Char × List Char :=
  (last_error_get_id s, last_error_get_line s, last_error_get_file s,
    last_error_get_function s, last_error_get_message s)

/-- The five getters of `error_reporting.c`. -/
inductive Getter where
  | id
  | line
  | message
  | file
  | function
  deriving DecidableEq

/-- What a getter returns: a `long` or a C string. -/
inductive Value where
  | number (v : Int)
  | text (t : List Char)
  deriving DecidableEq

/-- One call of a getter as a C function on the static variables: the value it returns
and the state it leaves. The body of each getter is a single `return` of a variable, so
the state it leaves is the state it found. -/
def call_getter (g : Getter) (s : State) : Value × State :=
  match g with
  | Getter.id => (Value.number s.LAST_ERROR_ID, s)
  | Getter.line => (Value.number s.LAST_ERROR_LINE, s)
  | Getter.message => (Value.text (cstr s.LAST_ERROR_MESSAGE), s)
  | Getter.file => (Value.text (cstr s.LAST_ERROR_FILE), s)
  | Getter.function => (Value.text (cstr s.LAST_ERROR_FUNCTION), s)

/-! ## Reading a decimal field back -/

/-- The value of a decimal digit character. -/
def digit_value (c : Char) : Nat :=
  c.toNat - 48

/-- The number a run of decimal digits denotes, leading zeros allowed. -/
def read_digits (cs : List Char) : Nat :=
  cs.foldl (fun acc c => 10 * acc + digit_value c) 0

/-- The signed number a decimal field denotes: an optional `-`, then digits. -/
def read_long (field : List Char) : Int :=
  match field with
  | [] => 0
  | c :: cs => if c = Char.ofNat 45 then -(read_digits cs : Int) else (read_digits (c :: cs) : Int)

/-! ## The two stages of `last_error_set` -/

/-- The first `snprintf` call of `last_error_set`: the value assigned to `bytes_written`
and the message buffer it leaves. -/
def head_call (s : State) (in_error_id : Int) (in_file : List Char) (in_line : Int)
    (in_function : List Char) : Int × List Char :=
  vsnprintf s.LAST_ERROR_MESSAGE 0 LAST_ERROR_MESSAGE_BUFFER_CAPACITY HEAD_FORMAT
    [Arg.long in_error_id, Arg.str in_file, Arg.long in_line, Arg.str in_function]

/-- The first overflow test of `last_error_set` is false, so that the body is formatted. -/
def reaches_body (s : State) (in_error_id : Int) (in_file : List Char) (in_line : Int)
    (in_function : List Char) : Prop :=
  ¬ ((head_call s in_error_id in_file in_line in_function).1 < 0 ∨
    to_size_t (head_call s in_error_id in_file in_line in_function).1
      ≥ LAST_ERROR_MESSAGE_BUFFER_CAPACITY)

instance (s : State) (in_error_id : Int) (in_file : List Char) (in_line : Int)
    (in_function : List Char) :
    Decidable (reaches_body s in_error_id in_file in_line in_function) := by
  unfold reaches_body
  infer_instance

/-- The offset of the second write, `LAST_ERROR_MESSAGE + bytes_written`. -/
def body_offset (s : State) (in_error_id : Int) (in_file : List Char) (in_line : Int)
    (in_function : List Char) : Nat :=
  (head_call s in_error_id in_file in_line in_function).1.toNat

/-- The value of `remaining_capacity` after `remaining_capacity -= (size_t)bytes_written`,
computed as the C code does, modulo `2 ^ 64`. -/
def body_capacity (s : State) (in_error_id : Int) (in_file : List Char) (in_line : Int)
    (in_function : List Char) : Nat :=
  to_size_t ((LAST_ERROR_MESSAGE_BUFFER_CAPACITY : Int) -
    (to_size_t (head_call s in_error_id in_file in_line in_function).1 : Int))

/-- The number of bytes a `vsnprintf` call with capacity `size` stores for an expansion
`out`, the terminating zero byte included. -/
def bytes_stored (size : Nat) (out : List Char) : Nat :=
  if size = 0 then 0 else (out.take (size - 1) ++ [NUL]).length

/-! ## C strings, buffers and formatted output: auxiliary facts -/

theorem nul_not_mem_cstr (p : List Char) : NUL ∉ cstr p := by
  intro h
  have := List.mem_takeWhile_imp h
  simp at this

theorem cstr_eq_self {l : List Char} (h : NUL ∉ l) : cstr l = l := by
  unfold cstr
  rw [List.takeWhile_eq_self_iff]
  intro c hc
  simp only [bne_iff_ne, ne_eq]
  rintro rfl
  exact h hc

theorem cstr_idem (p : List Char) : cstr (cstr p) = cstr p :=
  cstr_eq_self (nul_not_mem_cstr p)

theorem cstr_append_nul {l : List Char} (h : NUL ∉ l) (r : List Char) :
    cstr (l ++ NUL :: r) = l := by
  induction l with
  | nil => simp [cstr]
  | cons a l ih =>
    have ha : a ≠ NUL := fun e => h (by simp [e])
    have hl : NUL ∉ l := fun e => h (by simp [e])
    have := ih hl
    simp only [cstr] at this ⊢
    simp [List.takeWhile_cons, ha, this]

theorem cstr_set_zero (l : List Char) : cstr (l.set 0 NUL) = [] := by
  cases l <;> simp [cstr]

theorem cstr_head_format : cstr HEAD_FORMAT = HEAD_FORMAT := by
  apply cstr_eq_self
  decide

theorem expand_head_format (id : Int) (file : List Char) (line : Int) (function : List Char)
    :
    expand HEAD_FORMAT [Arg.long id, Arg.str file, Arg.long line, Arg.str function]
      = some (head_text id file line function) := by
  unfold expand
  rw [cstr_head_format]
  simp [HEAD_FORMAT, expandAux, convert, convert_d, convert_s, head_text, fmt_str]

theorem cstr_append_nul_gen (a r : List Char) : cstr (a ++ NUL :: r) = cstr a := by
  induction a with
  | nil => simp [cstr]
  | cons c a ih =>
    simp only [cstr] at ih ⊢
    by_cases hc : c = NUL
    · simp [List.takeWhile_cons, hc]
    · simp [List.takeWhile_cons, hc, ih]

theorem cstr_append_replicate {a : List Char} (h : NUL ∉ a) (k : Nat) :
    cstr (a ++ List.replicate k NUL) = a := by
  cases k with
  | zero => simpa using cstr_eq_self h
  | succ k => rw [List.replicate_succ, cstr_append_nul h]

theorem not_mem_take {a : List Char} (h : NUL ∉ a) (k : Nat) : NUL ∉ a.take k :=
  fun e => h (List.mem_of_mem_take e)

theorem cstr_strncpy_set (dst src : List Char) (n : Nat) (hn : 0 < n) :
    cstr ((strncpy dst src n).set (n - 1) NUL) = (cstr src).take (n - 1) := by
  have hlen : ((cstr src).take n ++ List.replicate (n - strlen src) NUL).length = n := by
    simp only [List.length_append, List.length_take, List.length_replicate, strlen]
    omega
  unfold strncpy write
  simp only [List.take_zero, List.nil_append, Nat.zero_add, hlen]
  rw [List.set_eq_take_append_cons_drop]
  have hlt : n - 1 < ((cstr src).take n ++ List.replicate (n - strlen src) NUL
      ++ List.drop n dst).length := by
    rw [List.length_append, hlen]; omega
  rw [if_pos hlt, cstr_append_nul_gen]
  rw [List.take_append_of_le_length (by rw [hlen]; omega)]
  rw [List.take_append_eq_append_take, List.take_take, List.take_replicate]
  rw [Nat.min_eq_left (by omega : n - 1 ≤ n)]
  exact cstr_append_replicate (not_mem_take (nul_not_mem_cstr src) _) _

theorem to_size_t_natCast (n : Nat) (h : n ≤ INT_MAX) : to_size_t (n : Int) = n := by
  unfold to_size_t SIZE_MODULUS
  unfold INT_MAX at h
  rw [Int.emod_eq_of_lt (by omega) (by omega)]
  simp

theorem overflow_iff (n cap : Nat) (hcap : cap ≤ 200) :
    (printf_result n < 0 ∨ to_size_t (printf_result n) ≥ cap) ↔ cap ≤ n := by
  unfold printf_result
  by_cases h : n ≤ INT_MAX
  · rw [if_pos h, to_size_t_natCast n h]
    constructor
    · rintro (h1 | h1)
      · omega
      · exact h1
    · intro h1; exact Or.inr h1
  · rw [if_neg h]
    unfold INT_MAX at h
    constructor
    · intro _; omega
    · intro _; left; decide

theorem ite_ne_nul {c : Prop} [Decidable c] {a b : Char} (ha : a ≠ NUL) (hb : b ≠ NUL) :
    (if c then a else b) ≠ NUL := by
  split_ifs <;> assumption

theorem digitChar_ne_nul (d : Nat) : Nat.digitChar d ≠ NUL := by
  unfold Nat.digitChar
  repeat (apply ite_ne_nul (by decide))
  decide

theorem nul_not_mem_decimal (n : Nat) : NUL ∉ decimal n := by
  unfold decimal
  split_ifs
  · simpa using (digitChar_ne_nul 0).symm
  · intro h
    rw [List.mem_map] at h
    obtain ⟨d, _, hd⟩ := h
    exact digitChar_ne_nul d hd

theorem nul_not_mem_replicate (k : Nat) (c : Char) (hc : c ≠ NUL) :
    NUL ∉ List.replicate k c := by
  intro h
  exact hc (List.eq_of_mem_replicate h).symm

theorem nul_not_mem_fmt_int (zero : Bool) (w : Nat) (v : Int) : NUL ∉ fmt_int zero w v := by
  have h1 : NUL ∉ (if v < 0 then [Char.ofNat 45] else [] : List Char) := by
    split_ifs
    · decide
    · simp
  have h2 := nul_not_mem_decimal v.natAbs
  have h3 := fun k => nul_not_mem_replicate k (Char.ofNat 48) (by decide)
  have h4 := fun k => nul_not_mem_replicate k (Char.ofNat 32) (by decide)
  unfold fmt_int
  cases zero <;> simp only [List.mem_append, not_or, h1, h2, h3, h4, ite_true, ite_false,
    not_false_eq_true, and_self, Bool.false_eq_true]

theorem nul_not_mem_fmt_str (w : Nat) (p : List Char) : NUL ∉ fmt_str w p := by
  unfold fmt_str
  simp only [List.mem_append, not_or]
  exact ⟨nul_not_mem_replicate _ _ (by decide), nul_not_mem_cstr p⟩

theorem nul_not_mem_convert {zero : Bool} {w : Nat} {isLong : Bool} {c : Char}
    {args rest : List Arg} {piece : List Char}
    (h : convert zero w isLong c args = some (piece, rest)) : NUL ∉ piece := by
  unfold convert at h
  split_ifs at h
  · unfold convert_d at h
    split at h
    · split_ifs at h
      simp only [Option.some.injEq, Prod.mk.injEq] at h
      rw [← h.1]; exact nul_not_mem_fmt_int _ _ _
    · split_ifs at h
      simp only [Option.some.injEq, Prod.mk.injEq] at h
      rw [← h.1]; exact nul_not_mem_fmt_int _ _ _
    · simp at h
  · unfold convert_s at h
    split at h
    · split_ifs at h
      simp only [Option.some.injEq, Prod.mk.injEq] at h
      rw [← h.1]; exact nul_not_mem_fmt_str _ _
    · simp at h

theorem nul_not_mem_expandAux (fmt : List Char) (hf : NUL ∉ fmt) :
    ∀ (m : Mode) (args : List Arg) (out : List Char),
      expandAux m fmt args = some out → NUL ∉ out := by
  induction fmt with
  | nil =>
    intro m args out h
    cases m <;> simp only [expandAux, Option.some.injEq, reduceCtorEq] at h
    rw [← h]
    exact List.not_mem_nil _
  | cons c fmt ih =>
    have hc : c ≠ NUL := fun e => hf (by simp [e])
    have hf2 : NUL ∉ fmt := fun e => hf (by simp [e])
    have ih := ih hf2
    have key : ∀ (piece : List Char) (args : List Arg) (out : List Char), NUL ∉ piece →
        (expandAux Mode.text fmt args).map (fun o => piece ++ o) = some out → NUL ∉ out := by
      intro piece args out hp h
      rw [Option.map_eq_some'] at h
      obtain ⟨o, ho, rfl⟩ := h
      simp only [List.mem_append, not_or]
      exact ⟨hp, ih _ _ _ ho⟩
    have keyc : ∀ (args : List Arg) (out : List Char),
        (expandAux Mode.text fmt args).map (fun o => c :: o) = some out → NUL ∉ out := by
      intro args out h
      exact key [c] args out (by simp [hc.symm]) (by simpa using h)
    have conv : ∀ (zero : Bool) (w : Nat) (isLong : Bool) (args : List Arg) (out : List Char),
        (match convert zero w isLong c args with
          | none => none
          | some (piece, rest) =>
            (expandAux Mode.text fmt rest).map (fun o => piece ++ o)) = some out →
        NUL ∉ out := by
      intro zero w isLong args out h
      split at h
      · simp at h
      · rename_i piece rest heq
        exact key piece rest out (nul_not_mem_convert heq) h
    intro m args out h
    cases m with
    | text =>
      simp only [expandAux] at h
      split_ifs at h
      · exact ih _ _ _ h
      · exact keyc _ _ h
    | flags zero =>
      simp only [expandAux] at h
      split_ifs at h
      · exact ih _ _ _ h
      · exact ih _ _ _ h
      · exact ih _ _ _ h
      · exact keyc _ _ h
      · exact conv _ _ _ _ _ h
    | width zero w =>
      simp only [expandAux] at h
      split_ifs at h
      · exact ih _ _ _ h
      · exact ih _ _ _ h
      · exact conv _ _ _ _ _ h
    | long zero w =>
      simp only [expandAux] at h
      exact conv _ _ _ _ _ h

theorem nul_not_mem_expand {fmt : List Char} {args : List Arg} {out : List Char}
    (h : expand fmt args = some out) : NUL ∉ out :=
  nul_not_mem_expandAux (cstr fmt) (nul_not_mem_cstr fmt) _ _ _ h

theorem nul_not_mem_head_text (id : Int) (file : List Char) (line : Int)
    (function : List Char) : NUL ∉ head_text id file line function :=
  nul_not_mem_expand (expand_head_format id file line function)

theorem printf_result_small {n : Nat} (h : n ≤ 200) : printf_result n = (n : Int) := by
  unfold printf_result INT_MAX
  rw [if_pos (by omega)]

theorem to_size_t_small {n : Nat} (h : n ≤ 200) : to_size_t (n : Int) = n :=
  to_size_t_natCast n (by unfold INT_MAX; omega)

theorem remaining_eq {n : Nat} (h : n ≤ 200) :
    to_size_t (((200 : Nat) : Int) - (n : Int)) = 200 - n := by
  have : (((200 : Nat) : Int) - (n : Int)) = (((200 - n : Nat)) : Int) := by omega
  rw [this, to_size_t_small (by omega)]

theorem vsnprintf_some {fmt : List Char} {args : List Arg} {out : List Char}
    (h : expand fmt args = some out) (buf : List Char) (off size : Nat) :
    vsnprintf buf off size fmt args = (printf_result out.length,
      if size = 0 then buf else write buf off (out.take (size - 1) ++ [NUL])) := by
  unfold vsnprintf
  rw [h]

theorem vsnprintf_none {fmt : List Char} {args : List Arg}
    (h : expand fmt args = none) (buf : List Char) (off size : Nat) :
    vsnprintf buf off size fmt args = (-1, buf) := by
  unfold vsnprintf
  rw [h]

theorem last_error_set_def (s : State) (id : Int) (file : List Char) (line : Int)
    (function fmt : List Char) (args : List Arg) :
    last_error_set s id file line function fmt args =
      if (vsnprintf s.LAST_ERROR_MESSAGE 0 200 HEAD_FORMAT
            [Arg.long id, Arg.str file, Arg.long line, Arg.str function]).1 < 0 ∨
          to_size_t (vsnprintf s.LAST_ERROR_MESSAGE 0 200 HEAD_FORMAT
            [Arg.long id, Arg.str file, Arg.long line, Arg.str function]).1 ≥ 200 then
        (0, { stored s id file line function with
          LAST_ERROR_MESSAGE := (vsnprintf s.LAST_ERROR_MESSAGE 0 200 HEAD_FORMAT
            [Arg.long id, Arg.str file, Arg.long line, Arg.str function]).2.set 0 NUL })
      else
        (fun (r : Int × List Char) (cap : Nat) =>
          if r.1 < 0 ∨ to_size_t r.1 ≥ cap then
            (0, { stored s id file line function with LAST_ERROR_MESSAGE := r.2.set 0 NUL })
          else
            ((1 : Int), { stored s id file line function with LAST_ERROR_MESSAGE := r.2 }))
        (vsnprintf (vsnprintf s.LAST_ERROR_MESSAGE 0 200 HEAD_FORMAT
            [Arg.long id, Arg.str file, Arg.long line, Arg.str function]).2
          (vsnprintf s.LAST_ERROR_MESSAGE 0 200 HEAD_FORMAT
            [Arg.long id, Arg.str file, Arg.long line, Arg.str function]).1.toNat
          (to_size_t (((200 : Nat) : Int) - ((to_size_t (vsnprintf s.LAST_ERROR_MESSAGE 0 200
            HEAD_FORMAT [Arg.long id, Arg.str file, Arg.long line,
              Arg.str function]).1 : Nat) : Int)))
          fmt args)
        (to_size_t (((200 : Nat) : Int) - ((to_size_t (vsnprintf s.LAST_ERROR_MESSAGE 0 200
            HEAD_FORMAT [Arg.long id, Arg.str file, Arg.long line,
              Arg.str function]).1 : Nat) : Int))) := by
  rfl

theorem set_head_overflow (s : State) (id : Int) (file : List Char) (line : Int)
    (function fmt : List Char) (args : List Arg) (H : List Char)
    (hH : expand HEAD_FORMAT [Arg.long id, Arg.str file, Arg.long line, Arg.str function]
      = some H)
    (h : 200 ≤ H.length) :
    last_error_set s id file line function fmt args =
      (0, { stored s id file line function with
        LAST_ERROR_MESSAGE :=
          (write s.LAST_ERROR_MESSAGE 0 (H.take 199 ++ [NUL])).set 0 NUL }) := by
  have hov := (overflow_iff H.length 200 (le_refl _)).2 h
  rw [last_error_set_def, vsnprintf_some hH]
  rw [if_pos hov]
  rfl

theorem set_body_error (s : State) (id : Int) (file : List Char) (line : Int)
    (function fmt : List Char) (args : List Arg) (H : List Char)
    (hH : expand HEAD_FORMAT [Arg.long id, Arg.str file, Arg.long line, Arg.str function]
      = some H)
    (h : H.length ≤ 199)
    (he : expand fmt args = none) :
    last_error_set s id file line function fmt args =
      (0, { stored s id file line function with
        LAST_ERROR_MESSAGE :=
          (write s.LAST_ERROR_MESSAGE 0 (H.take 199 ++ [NUL])).set 0 NUL }) := by
  have hov : ¬ (printf_result H.length < 0 ∨ to_size_t (printf_result H.length) ≥ 200) := by
    rw [overflow_iff _ 200 (le_refl _)]
    omega
  rw [last_error_set_def, vsnprintf_some hH]
  rw [if_neg hov]
  simp only [vsnprintf_none he]
  rw [if_pos (Or.inl (by decide))]
  rfl

theorem set_body (s : State) (id : Int) (file : List Char) (line : Int)
    (function fmt : List Char) (args : List Arg) (H body : List Char)
    (hH : expand HEAD_FORMAT [Arg.long id, Arg.str file, Arg.long line, Arg.str function]
      = some H)
    (h : H.length ≤ 199)
    (he : expand fmt args = some body) :
    last_error_set s id file line function fmt args =
      if 200 ≤ H.length + body.length then
        (0, { stored s id file line function with
          LAST_ERROR_MESSAGE :=
            (write (write s.LAST_ERROR_MESSAGE 0 (H.take 199 ++ [NUL])) H.length
              (body.take (200 - H.length - 1) ++ [NUL])).set 0 NUL })
      else
        (1, { stored s id file line function with
          LAST_ERROR_MESSAGE :=
            write (write s.LAST_ERROR_MESSAGE 0 (H.take 199 ++ [NUL])) H.length
              (body.take (200 - H.length - 1) ++ [NUL]) }) := by
  have hov : ¬ (printf_result H.length < 0 ∨ to_size_t (printf_result H.length) ≥ 200) := by
    rw [overflow_iff _ 200 (le_refl _)]
    omega
  have hov2 := overflow_iff body.length (200 - H.length) (by omega)
  have hne : ¬ (200 - H.length = 0) := by omega
  rw [last_error_set_def, vsnprintf_some hH]
  rw [if_neg hov]
  simp only [printf_result_small (by omega : H.length ≤ 200),
    to_size_t_small (by omega : H.length ≤ 200),
    remaining_eq (by omega : H.length ≤ 200),
    Int.toNat_ofNat, vsnprintf_some he, if_neg hne, if_neg (by decide : ¬ (200 = 0))]
  by_cases hb : 200 ≤ H.length + body.length
  · rw [if_pos hb, if_pos (hov2.2 (by omega))]
  · rw [if_neg hb, if_neg (fun hc => hb (by have := hov2.1 hc; omega))]

/-! ## What one call of `last_error_set` does -/

theorem write_zero_take (buf out : List Char) (k : Nat) (h : out.length ≤ k) :
    write buf 0 (out.take k ++ [NUL]) = out ++ NUL :: buf.drop (out.length + 1) := by
  unfold write
  rw [List.take_of_length_le h]
  simp

theorem write_after (out body rest : List Char) :
    write (out ++ NUL :: rest) out.length (body ++ [NUL])
      = (out ++ body) ++ NUL :: (out ++ NUL :: rest).drop (out.length + (body.length + 1)) := by
  unfold write
  simp

theorem cstr_written (buf H body : List Char) (hH : NUL ∉ H) (hb : NUL ∉ body)
    (h : H.length + body.length ≤ 199) :
    cstr (write (write buf 0 (H.take 199 ++ [NUL])) H.length
      (body.take (200 - H.length - 1) ++ [NUL])) = H ++ body := by
  rw [write_zero_take buf H 199 (by omega), List.take_of_length_le (by omega), write_after]
  apply cstr_append_nul
  simp only [List.mem_append, not_or]
  exact ⟨hH, hb⟩

theorem set_fail_of_head (s : State) (id : Int) (file : List Char) (line : Int)
    (function fmt : List Char) (args : List Arg)
    (h : 200 ≤ (head_text id file line function).length) :
    (last_error_set s id file line function fmt args).1 = 0 ∧
    last_error_get_message (last_error_set s id file line function fmt args).2 = [] := by
  rw [set_head_overflow s id file line function fmt args _
    (expand_head_format id file line function) h]
  exact ⟨rfl, cstr_set_zero _⟩

theorem set_fail_of_error (s : State) (id : Int) (file : List Char) (line : Int)
    (function fmt : List Char) (args : List Arg) (he : expand fmt args = none) :
    (last_error_set s id file line function fmt args).1 = 0 ∧
    last_error_get_message (last_error_set s id file line function fmt args).2 = [] := by
  have hH := expand_head_format id file line function
  generalize head_text id file line function = H at hH
  by_cases h : 200 ≤ H.length
  · rw [set_head_overflow s id file line function fmt args H hH h]
    exact ⟨rfl, cstr_set_zero _⟩
  · rw [set_body_error s id file line function fmt args H hH (by omega) he]
    exact ⟨rfl, cstr_set_zero _⟩

theorem set_fail_of_long (s : State) (id : Int) (file : List Char) (line : Int)
    (function fmt : List Char) (args : List Arg) (body : List Char)
    (he : expand fmt args = some body)
    (h : 200 ≤ (head_text id file line function).length + body.length) :
    (last_error_set s id file line function fmt args).1 = 0 ∧
    last_error_get_message (last_error_set s id file line function fmt args).2 = [] := by
  have hH := expand_head_format id file line function
  generalize head_text id file line function = H at hH h
  by_cases h1 : 200 ≤ H.length
  · rw [set_head_overflow s id file line function fmt args H hH h1]
    exact ⟨rfl, cstr_set_zero _⟩
  · rw [set_body s id file line function fmt args H body hH (by omega) he, if_pos h]
    exact ⟨rfl, cstr_set_zero _⟩

theorem set_ok (s : State) (id : Int) (file : List Char) (line : Int)
    (function fmt : List Char) (args : List Arg) (body : List Char)
    (he : expand fmt args = some body)
    (h : (head_text id file line function).length + body.length ≤ 199) :
    (last_error_set s id file line function fmt args).1 = 1 ∧
    last_error_get_message (last_error_set s id file line function fmt args).2
      = head_text id file line function ++ body := by
  have hH := expand_head_format id file line function
  generalize head_text id file line function = H at hH h
  rw [set_body s id file line function fmt args H body hH (by omega) he,
    if_neg (by omega)]
  exact ⟨rfl, cstr_written _ H body (nul_not_mem_expand hH) (nul_not_mem_expand he) h⟩

theorem set_shape (s : State) (id : Int) (file : List Char) (line : Int)
    (function fmt : List Char) (args : List Arg) :
    ∃ (r : Int) (m : List Char), last_error_set s id file line function fmt args =
      (r, { stored s id file line function with LAST_ERROR_MESSAGE := m }) := by
  have hH := expand_head_format id file line function
  generalize head_text id file line function = H at hH
  by_cases h : 200 ≤ H.length
  · exact ⟨_, _, set_head_overflow s id file line function fmt args H hH h⟩
  · cases he : expand fmt args with
    | none => exact ⟨_, _, set_body_error s id file line function fmt args H hH (by omega) he⟩
    | some body =>
      rw [set_body s id file line function fmt args H body hH (by omega) he]
      split_ifs
      · exact ⟨_, _, rfl⟩
      · exact ⟨_, _, rfl⟩

theorem last_error_set_id (s : State) (id : Int) (file : List Char) (line : Int)
    (function fmt : List Char) (args : List Arg) :
    last_error_get_id (last_error_set s id file line function fmt args).2 = id := by
  obtain ⟨r, m, h⟩ := set_shape s id file line function fmt args
  rw [h]
  rfl

theorem last_error_set_line (s : State) (id : Int) (file : List Char) (line : Int)
    (function fmt : List Char) (args : List Arg) :
    last_error_get_line (last_error_set s id file line function fmt args).2 = line := by
  obtain ⟨r, m, h⟩ := set_shape s id file line function fmt args
  rw [h]
  rfl

theorem last_error_set_file (s : State) (id : Int) (file : List Char) (line : Int)
    (function fmt : List Char) (args : List Arg) :
    last_error_get_file (last_error_set s id file line function fmt args).2
      = (cstr file).take 10239 := by
  obtain ⟨r, m, h⟩ := set_shape s id file line function fmt args
  rw [h]
  exact cstr_strncpy_set s.LAST_ERROR_FILE file LAST_ERROR_FILE_BUFFER_CAPACITY (by decide)

theorem last_error_set_function (s : State) (id : Int) (file : List Char) (line : Int)
    (function fmt : List Char) (args : List Arg) :
    last_error_get_function (last_error_set s id file line function fmt args).2
      = (cstr function).take 10239 := by
  obtain ⟨r, m, h⟩ := set_shape s id file line function fmt args
  rw [h]
  exact cstr_strncpy_set s.LAST_ERROR_FUNCTION function
    LAST_ERROR_FUNCTION_BUFFER_CAPACITY (by decide)

/-- Every call returns 0 or 1. -/
theorem set_ret_cases (s : State) (id : Int) (file : List Char) (line : Int)
    (function fmt : List Char) (args : List Arg) :
    (last_error_set s id file line function fmt args).1 = 0 ∨
    (last_error_set s id file line function fmt args).1 = 1 := by
  cases he : expand fmt args with
  | none => exact Or.inl (set_fail_of_error s id file line function fmt args he).1
  | some body =>
    by_cases h : 200 ≤ (head_text id file line function).length + body.length
    · exact Or.inl (set_fail_of_long s id file line function fmt args body he h).1
    · exact Or.inr (set_ok s id file line function fmt args body he (by omega)).1

/-- A call that returns 1 has an expansion that fits with the first part. -/
theorem set_ok_inv (s : State) (id : Int) (file : List Char) (line : Int)
    (function fmt : List Char) (args : List Arg)
    (h : (last_error_set s id file line function fmt args).1 = 1) :
    ∃ body, expand fmt args = some body ∧
      (head_text id file line function).length + body.length ≤ 199 := by
  cases he : expand fmt args with
  | none =>
    rw [(set_fail_of_error s id file line function fmt args he).1] at h
    exact absurd h (by decide)
  | some body =>
    refine ⟨body, rfl, ?_⟩
    by_contra hc
    have h200 : 200 ≤ (head_text id file line function).length + body.length := by omega
    rw [(set_fail_of_long s id file line function fmt args body he h200).1] at h
    exact absurd h (by decide)

/-! ## Lengths of the formatted pieces -/

theorem decimal_length_pos (n : Nat) : 1 ≤ (decimal n).length := by
  unfold decimal
  split_ifs with h
  · simp
  · have : Nat.digits 10 n ≠ [] := Nat.digits_ne_nil_iff_ne_zero.mpr h
    rw [List.length_map, List.length_reverse]
    exact List.length_pos.mpr this

theorem decimal_length_le (n e : Nat) (he : 0 < e) (h : n < 10 ^ e) :
    (decimal n).length ≤ e := by
  unfold decimal
  split_ifs with h0
  · simpa using he
  · rw [List.length_map, List.length_reverse]
    by_contra hc
    have h1 : 10 ^ (e + 1) ≤ 10 ^ (Nat.digits 10 n).length :=
      Nat.pow_le_pow_right (by decide) (by omega)
    have h2 := Nat.base_pow_length_digits_le 10 n (by decide) h0
    have h3 : 10 ^ (e + 1) = 10 * 10 ^ e := by rw [pow_succ, Nat.mul_comm]
    omega

theorem fmt_int_length (zero : Bool) (w : Nat) (v : Int) :
    (fmt_int zero w v).length
      = max w ((if v < 0 then 1 else 0) + (decimal v.natAbs).length) := by
  unfold fmt_int
  cases zero <;> split_ifs <;>
    simp only [List.length_append, List.length_replicate, List.length_cons, List.length_nil,
      ite_true, ite_false, Bool.false_eq_true] <;> omega

theorem head_text_length (id : Int) (file : List Char) (line : Int) (function : List Char) :
    (head_text id file line function).length
      = 9 + (fmt_int true 10 id).length + strlen file + (fmt_int false 0 line).length
        + strlen function := by
  unfold head_text strlen
  simp only [List.length_append]
  have e1 : "#".toList.length = 1 := by decide
  have e2 : " [".toList.length = 2 := by decide
  have e3 : ":".toList.length = 1 := by decide
  have e4 : " ".toList.length = 1 := by decide
  have e5 : "()] ".toList.length = 4 := by decide
  rw [e1, e2, e3, e4, e5]
  omega

theorem head_text_length_ge (id : Int) (file : List Char) (line : Int)
    (function : List Char) :
    20 + strlen file + strlen function ≤ (head_text id file line function).length := by
  rw [head_text_length, fmt_int_length, fmt_int_length]
  have := decimal_length_pos line.natAbs
  omega

/-! ## Evaluation on the inputs of the test suite -/

theorem expand_percent_s (p : List Char) (rest : List Arg) :
    expand "%s".toList (Arg.str p :: rest) = some (cstr p) := by
  simp [expand, expandAux, cstr, NUL, convert, convert_s, fmt_str, strlen]

theorem expand_sum :
    expand "%d + %d".toList [Arg.int 10, Arg.int 20] = some "10 + 20".toList := by
  simp [expand, expandAux, cstr, NUL, convert, convert_d, fmt_int, decimal]
  decide

theorem head_text_nominal :
    head_text 10 "test_error_reporting.c".toList 26 "test_nominal_use_case".toList
      = "#0000000010 [test_error_reporting.c:26 test_nominal_use_case()] ".toList := by
  simp [head_text, fmt_int, decimal, cstr, NUL]
  decide

/-! ## C1: the value returned -/

/-- C1: when the format expands to a body, `last_error_set` returns 1 exactly when the
first part `#<id> [<file>:<line> <function>()] ` and the body have at most 199 characters
together, and returns 0 exactly when they have 200 or more; this for every prior state,
identifier, file, line, function and body. -/
theorem last_error_set_returns (s : State) (id : Int) (file : List Char) (line : Int)
    (function fmt : List Char) (args : List Arg) (body : List Char)
    (he : expand fmt args = some body) :
    ((last_error_set s id file line function fmt args).1 = 1 ↔
      (head_text id file line function).length + body.length ≤ 199) ∧
    ((last_error_set s id file line function fmt args).1 = 0 ↔
      200 ≤ (head_text id file line function).length + body.length) := by
  by_cases h : 200 ≤ (head_text id file line function).length + body.length
  · have h0 := (set_fail_of_long s id file line function fmt args body he h).1
    rw [h0]
    exact ⟨⟨fun e => absurd e (by decide), fun e => by omega⟩, ⟨fun _ => h, fun _ => rfl⟩⟩
  · have h1 := (set_ok s id file line function fmt args body he (by omega)).1
    rw [h1]
    exact ⟨⟨fun _ => by omega, fun _ => rfl⟩, ⟨fun e => absurd e (by decide),
      fun e => absurd e h⟩⟩

/-- C1 at the call `last_error_set(10, "f.c", 1, "g", "%s", "disk full")`. -/
theorem last_error_set_returns_witness :
    expand "%s".toList [Arg.str "disk full".toList] = some "disk full".toList ∧
    (((last_error_set State.start 10 "f.c".toList 1 "g".toList "%s".toList
        [Arg.str "disk full".toList]).1 = 1 ↔
      (head_text 10 "f.c".toList 1 "g".toList).length + "disk full".toList.length ≤ 199) ∧
    ((last_error_set State.start 10 "f.c".toList 1 "g".toList "%s".toList
        [Arg.str "disk full".toList]).1 = 0 ↔
      200 ≤ (head_text 10 "f.c".toList 1 "g".toList).length
        + "disk full".toList.length)) :=
  ⟨expand_percent_s _ _, last_error_set_returns State.start 10 "f.c".toList 1 "g".toList
    "%s".toList [Arg.str "disk full".toList] "disk full".toList (expand_percent_s _ _)⟩

theorem strlen_replicate_a (k : Nat) : strlen (List.replicate k (Char.ofNat 97)) = k := by
  unfold strlen
  rw [cstr_eq_self (nul_not_mem_replicate _ _ (by decide)), List.length_replicate]

theorem head_text_hundred :
    (head_text 10 (List.replicate 79 (Char.ofNat 97)) 1 "g".toList).length = 100 := by
  rw [head_text_length, strlen_replicate_a]
  simp [fmt_int, decimal, strlen, cstr, NUL]

/-- The boundary of the test suite: a first part of 100 characters and a body of 100
characters are refused and leave an empty message. -/
theorem boundary_too_long (s : State) :
    (last_error_set s 10 (List.replicate 79 (Char.ofNat 97)) 1 "g".toList "%s".toList
      [Arg.str (List.replicate 100 (Char.ofNat 97))]).1 = 0 ∧
    last_error_get_message (last_error_set s 10 (List.replicate 79 (Char.ofNat 97)) 1
      "g".toList "%s".toList [Arg.str (List.replicate 100 (Char.ofNat 97))]).2 = [] := by
  apply set_fail_of_long _ _ _ _ _ _ _ _ (expand_percent_s _ _)
  rw [head_text_hundred]
  have := strlen_replicate_a 100
  unfold strlen at this
  omega

/-- The boundary of the test suite: a first part of 100 characters and a body of 99
characters are accepted. -/
theorem boundary_just_fits (s : State) :
    (last_error_set s 10 (List.replicate 79 (Char.ofNat 97)) 1 "g".toList "%s".toList
      [Arg.str (List.replicate 99 (Char.ofNat 97))]).1 = 1 ∧
    (last_error_get_message (last_error_set s 10 (List.replicate 79 (Char.ofNat 97)) 1
      "g".toList "%s".toList [Arg.str (List.replicate 99 (Char.ofNat 97))]).2).length
        = 199 := by
  have hlen := strlen_replicate_a 99
  unfold strlen at hlen
  have h := set_ok s 10 (List.replicate 79 (Char.ofNat 97)) 1 "g".toList "%s".toList
    [Arg.str (List.replicate 99 (Char.ofNat 97))] _ (expand_percent_s _ _)
    (by rw [head_text_hundred]; omega)
  refine ⟨h.1, ?_⟩
  rw [h.2, List.length_append, head_text_hundred, hlen]

/-! ## C2: the register after a call that succeeds -/

/-- C2: after a call of `last_error_set` that returns 1, the identifier and the line read
back as passed, the file and the function read back as the strings passed, and the message
is `#`, the identifier zero-padded to 10 digits, ` [`, the file, `:`, the line, a blank,
the function, `()] ` and the expansion of the format, in this order. -/
theorem last_error_set_success (s : State) (id : Int) (file : List Char) (line : Int)
    (function fmt : List Char) (args : List Arg)
    (h : (last_error_set s id file line function fmt args).1 = 1) :
    last_error_get_id (last_error_set s id file line function fmt args).2 = id ∧
    last_error_get_line (last_error_set s id file line function fmt args).2 = line ∧
    last_error_get_file (last_error_set s id file line function fmt args).2 = cstr file ∧
    last_error_get_function (last_error_set s id file line function fmt args).2
      = cstr function ∧
    ∃ body, expand fmt args = some body ∧
      last_error_get_message (last_error_set s id file line function fmt args).2
        = "#".toList ++ fmt_int true 10 id ++ " [".toList ++ cstr file ++ ":".toList ++
          fmt_int false 0 line ++ " ".toList ++ cstr function ++ "()] ".toList ++ body := by
  obtain ⟨body, he, hfit⟩ := set_ok_inv s id file line function fmt args h
  have hge := head_text_length_ge id file line function
  unfold strlen at hge
  refine ⟨last_error_set_id _ _ _ _ _ _ _, last_error_set_line _ _ _ _ _ _ _, ?_, ?_,
    body, he, ?_⟩
  · rw [last_error_set_file, List.take_of_length_le (by omega)]
  · rw [last_error_set_function, List.take_of_length_le (by omega)]
  · rw [(set_ok s id file line function fmt args body he hfit).2]
    rfl

/-- C2 at the call of `test_nominal_use_case`: identifier 10, format `%d + %d` with the
arguments 10 and 20. -/
theorem last_error_set_success_witness :
    (last_error_set State.start 10 "test_error_reporting.c".toList 26
      "test_nominal_use_case".toList "%d + %d".toList [Arg.int 10, Arg.int 20]).1 = 1 ∧
    (last_error_get_id (last_error_set State.start 10 "test_error_reporting.c".toList 26
      "test_nominal_use_case".toList "%d + %d".toList [Arg.int 10, Arg.int 20]).2 = 10 ∧
    last_error_get_line (last_error_set State.start 10 "test_error_reporting.c".toList 26
      "test_nominal_use_case".toList "%d + %d".toList [Arg.int 10, Arg.int 20]).2 = 26 ∧
    last_error_get_file (last_error_set State.start 10 "test_error_reporting.c".toList 26
      "test_nominal_use_case".toList "%d + %d".toList [Arg.int 10, Arg.int 20]).2
        = cstr "test_error_reporting.c".toList ∧
    last_error_get_function (last_error_set State.start 10
      "test_error_reporting.c".toList 26
      "test_nominal_use_case".toList "%d + %d".toList [Arg.int 10, Arg.int 20]).2
        = cstr "test_nominal_use_case".toList ∧
    ∃ body, expand "%d + %d".toList [Arg.int 10, Arg.int 20] = some body ∧
      last_error_get_message (last_error_set State.start 10
        "test_error_reporting.c".toList 26
        "test_nominal_use_case".toList "%d + %d".toList [Arg.int 10, Arg.int 20]).2
        = "#".toList ++ fmt_int true 10 10 ++ " [".toList ++
          cstr "test_error_reporting.c".toList ++ ":".toList ++
          fmt_int false 0 26 ++ " ".toList ++ cstr "test_nominal_use_case".toList ++
          "()] ".toList ++ body) :=
  have h := (set_ok State.start 10 "test_error_reporting.c".toList 26
    "test_nominal_use_case".toList "%d + %d".toList [Arg.int 10, Arg.int 20]
    "10 + 20".toList expand_sum (by rw [head_text_nominal]; decide)).1
  ⟨h, last_error_set_success State.start 10 "test_error_reporting.c".toList 26
    "test_nominal_use_case".toList "%d + %d".toList [Arg.int 10, Arg.int 20] h⟩

/-- The message of `test_nominal_use_case`, character for character. -/
theorem nominal_message (s : State) :
    last_error_get_message (last_error_set s 10 "test_error_reporting.c".toList 26
      "test_nominal_use_case".toList "%d + %d".toList [Arg.int 10, Arg.int 20]).2
      = "#0000000010 [test_error_reporting.c:26 test_nominal_use_case()] 10 + 20".toList := by
  rw [(set_ok s 10 "test_error_reporting.c".toList 26
    "test_nominal_use_case".toList "%d + %d".toList [Arg.int 10, Arg.int 20]
    "10 + 20".toList expand_sum (by rw [head_text_nominal]; decide)).2, head_text_nominal]
  decide

/-! ## C3: the register after `last_error_init` -/

/-- C3: after `last_error_init`, from any prior state, the identifier is -1, the line is
-1, and the file, the function and the message are the empty string. -/
theorem last_error_init_getters (s : State) :
    last_error_get_id (last_error_init s) = -1 ∧
    last_error_get_line (last_error_init s) = -1 ∧
    last_error_get_file (last_error_init s) = [] ∧
    last_error_get_function (last_error_init s) = [] ∧
    last_error_get_message (last_error_init s) = [] :=
  ⟨rfl, rfl, cstr_set_zero _, cstr_set_zero _, cstr_set_zero _⟩

/-! ## C4: the message after a call that fails -/

/-- C4: whenever `last_error_set` returns 0, the message read afterwards is the empty
string, whichever stage failed; the first part written before a body that does not fit is
not left in the message. -/
theorem last_error_set_failure_message (s : State) (id : Int) (file : List Char)
    (line : Int) (function fmt : List Char) (args : List Arg)
    (h : (last_error_set s id file line function fmt args).1 = 0) :
    last_error_get_message (last_error_set s id file line function fmt args).2 = [] := by
  cases he : expand fmt args with
  | none => exact (set_fail_of_error s id file line function fmt args he).2
  | some body =>
    by_cases hfit : 200 ≤ (head_text id file line function).length + body.length
    · exact (set_fail_of_long s id file line function fmt args body he hfit).2
    · rw [(set_ok s id file line function fmt args body he (by omega)).1] at h
      exact absurd h (by decide)

/-- C4 at a call whose first part (100 characters) fits and whose body (100 characters)
does not. -/
theorem last_error_set_failure_message_witness :
    (last_error_set State.start 10 (List.replicate 79 (Char.ofNat 97)) 1 "g".toList
      "%s".toList [Arg.str (List.replicate 100 (Char.ofNat 97))]).1 = 0 ∧
    last_error_get_message (last_error_set State.start 10
      (List.replicate 79 (Char.ofNat 97)) 1 "g".toList
      "%s".toList [Arg.str (List.replicate 100 (Char.ofNat 97))]).2 = [] :=
  ⟨(boundary_too_long State.start).1,
    last_error_set_failure_message State.start 10 (List.replicate 79 (Char.ofNat 97)) 1
      "g".toList "%s".toList [Arg.str (List.replicate 100 (Char.ofNat 97))]
      (boundary_too_long State.start).1⟩

/-! ## C5 and C6: the other fields -/

/-- C5: after a call of `last_error_set` that returns 0, the identifier and the line read
back as passed to that call, and the file and the function read back as the first 10239
characters of the strings passed to that call (the strings themselves when they have at
most 10239 characters), whatever the register held before. -/
theorem last_error_set_failure_fields (s : State) (id : Int) (file : List Char)
    (line : Int) (function fmt : List Char) (args : List Arg)
    (_h : (last_error_set s id file line function fmt args).1 = 0) :
    last_error_get_id (last_error_set s id file line function fmt args).2 = id ∧
    last_error_get_line (last_error_set s id file line function fmt args).2 = line ∧
    last_error_get_file (last_error_set s id file line function fmt args).2
      = (cstr file).take 10239 ∧
    last_error_get_function (last_error_set s id file line function fmt args).2
      = (cstr function).take 10239 ∧
    (strlen file ≤ 10239 →
      last_error_get_file (last_error_set s id file line function fmt args).2
        = cstr file) ∧
    (strlen function ≤ 10239 →
      last_error_get_function (last_error_set s id file line function fmt args).2
        = cstr function) := by
  refine ⟨last_error_set_id _ _ _ _ _ _ _, last_error_set_line _ _ _ _ _ _ _,
    last_error_set_file _ _ _ _ _ _ _, last_error_set_function _ _ _ _ _ _ _, ?_, ?_⟩
  · intro hl
    rw [last_error_set_file, List.take_of_length_le hl]
  · intro hl
    rw [last_error_set_function, List.take_of_length_le hl]

/-- C5 at a call that fails at the first stage (a file name of 200 characters) on a
register that holds the result of `last_error_init`. -/
theorem last_error_set_failure_fields_witness :
    (last_error_set (last_error_init State.start) 7 (List.replicate 200 (Char.ofNat 97))
      42 "g".toList "%s".toList [Arg.str "x".toList]).1 = 0 ∧
    (last_error_get_id (last_error_set (last_error_init State.start) 7
      (List.replicate 200 (Char.ofNat 97)) 42 "g".toList "%s".toList
      [Arg.str "x".toList]).2 = 7 ∧
    last_error_get_line (last_error_set (last_error_init State.start) 7
      (List.replicate 200 (Char.ofNat 97)) 42 "g".toList "%s".toList
      [Arg.str "x".toList]).2 = 42 ∧
    last_error_get_file (last_error_set (last_error_init State.start) 7
      (List.replicate 200 (Char.ofNat 97)) 42 "g".toList "%s".toList
      [Arg.str "x".toList]).2 = (cstr (List.replicate 200 (Char.ofNat 97))).take 10239 ∧
    last_error_get_function (last_error_set (last_error_init State.start) 7
      (List.replicate 200 (Char.ofNat 97)) 42 "g".toList "%s".toList
      [Arg.str "x".toList]).2 = (cstr "g".toList).take 10239 ∧
    (strlen (List.replicate 200 (Char.ofNat 97)) ≤ 10239 →
      last_error_get_file (last_error_set (last_error_init State.start) 7
        (List.replicate 200 (Char.ofNat 97)) 42 "g".toList "%s".toList
        [Arg.str "x".toList]).2 = cstr (List.replicate 200 (Char.ofNat 97))) ∧
    (strlen "g".toList ≤ 10239 →
      last_error_get_function (last_error_set (last_error_init State.start) 7
        (List.replicate 200 (Char.ofNat 97)) 42 "g".toList "%s".toList
        [Arg.str "x".toList]).2 = cstr "g".toList)) :=
  have h := (set_fail_of_head (last_error_init State.start) 7
    (List.replicate 200 (Char.ofNat 97)) 42 "g".toList "%s".toList [Arg.str "x".toList]
    (by
      have h1 := head_text_length_ge 7 (List.replicate 200 (Char.ofNat 97)) 42 "g".toList
      rw [strlen_replicate_a] at h1
      omega)).1
  ⟨h, last_error_set_failure_fields (last_error_init State.start) 7
    (List.replicate 200 (Char.ofNat 97)) 42 "g".toList "%s".toList [Arg.str "x".toList] h⟩

/-- C6: after every call of `last_error_set`, whatever it returns, the file read back is
the first `min (strlen file) 10239` characters of the file passed and the function read
back is the first `min (strlen function) 10239` characters of the function passed: a
string of at most 10239 characters is stored unchanged, a longer one is cut to exactly
10239 characters, and both stored strings have at most 10239 characters. -/
theorem last_error_set_truncation (s : State) (id : Int) (file : List Char) (line : Int)
    (function fmt : List Char) (args : List Arg) :
    (last_error_get_file (last_error_set s id file line function fmt args).2
        = (cstr file).take (min (strlen file) 10239) ∧
      last_error_get_function (last_error_set s id file line function fmt args).2
        = (cstr function).take (min (strlen function) 10239)) ∧
    ((strlen file ≤ 10239 →
        last_error_get_file (last_error_set s id file line function fmt args).2
          = cstr file) ∧
      (strlen function ≤ 10239 →
        last_error_get_function (last_error_set s id file line function fmt args).2
          = cstr function)) ∧
    ((10239 < strlen file →
        (last_error_get_file
          (last_error_set s id file line function fmt args).2).length = 10239) ∧
      (10239 < strlen function →
        (last_error_get_function
          (last_error_set s id file line function fmt args).2).length = 10239)) ∧
    ((last_error_get_file
        (last_error_set s id file line function fmt args).2).length ≤ 10239 ∧
      (last_error_get_function
        (last_error_set s id file line function fmt args).2).length ≤ 10239) := by
  rw [last_error_set_file, last_error_set_function]
  unfold strlen
  refine ⟨⟨?_, ?_⟩, ⟨?_, ?_⟩, ⟨?_, ?_⟩, ?_, ?_⟩
  · rcases Nat.le_total (cstr file).length 10239 with hl | hl
    · rw [Nat.min_eq_left hl, List.take_length, List.take_of_length_le hl]
    · rw [Nat.min_eq_right hl]
  · rcases Nat.le_total (cstr function).length 10239 with hl | hl
    · rw [Nat.min_eq_left hl, List.take_length, List.take_of_length_le hl]
    · rw [Nat.min_eq_right hl]
  · exact fun hl => List.take_of_length_le hl
  · exact fun hl => List.take_of_length_le hl
  · intro hl
    rw [List.length_take]
    omega
  · intro hl
    rw [List.length_take]
    omega
  · rw [List.length_take]
    omega
  · rw [List.length_take]
    omega

/-! ## C7: a file name longer than the file buffer -/

/-- C7, as stated, fails: no call of `last_error_set` whose file argument has more than
10240 characters returns 1, because the first part of the message holds the whole file
name and cannot fit in 200 bytes. -/
theorem no_success_with_long_file :
    ¬ ∃ (s : State) (id : Int) (file : List Char) (line : Int) (function fmt : List Char)
        (args : List Arg),
      10240 < strlen file ∧
      last_error_get_file (last_error_set s id file line function fmt args).2
        = (cstr file).take 10239 ∧
      (last_error_set s id file line function fmt args).1 = 1 := by
  rintro ⟨s, id, file, line, function, fmt, args, hlong, _, hret⟩
  have hge := head_text_length_ge id file line function
  rw [(set_fail_of_head s id file line function fmt args (by omega)).1] at hret
  exact absurd hret (by decide)

/-- C7, amended: every call of `last_error_set` whose file argument has more than 10240
characters leaves the first 10239 characters of that argument in the file field, returns
0 and leaves an empty message. -/
theorem long_file_truncated_and_refused (s : State) (id : Int) (file : List Char)
    (line : Int) (function fmt : List Char) (args : List Arg)
    (hlong : 10240 < strlen file) :
    last_error_get_file (last_error_set s id file line function fmt args).2
      = (cstr file).take 10239 ∧
    (last_error_get_file (last_error_set s id file line function fmt args).2).length
      = 10239 ∧
    (last_error_set s id file line function fmt args).1 = 0 ∧
    last_error_get_message (last_error_set s id file line function fmt args).2 = [] := by
  have hge := head_text_length_ge id file line function
  refine ⟨last_error_set_file _ _ _ _ _ _ _, ?_,
    set_fail_of_head s id file line function fmt args (by omega)⟩
  rw [last_error_set_file, List.length_take]
  unfold strlen at hlong
  omega

/-- C7, amended, at a file name of 10241 characters. -/
theorem long_file_truncated_and_refused_witness :
    10240 < strlen (List.replicate 10241 (Char.ofNat 97)) ∧
    (last_error_get_file (last_error_set State.start 10
        (List.replicate 10241 (Char.ofNat 97)) 1 "g".toList "%s".toList
        [Arg.str "x".toList]).2
      = (cstr (List.replicate 10241 (Char.ofNat 97))).take 10239 ∧
    (last_error_get_file (last_error_set State.start 10
        (List.replicate 10241 (Char.ofNat 97)) 1 "g".toList "%s".toList
        [Arg.str "x".toList]).2).length = 10239 ∧
    (last_error_set State.start 10 (List.replicate 10241 (Char.ofNat 97)) 1 "g".toList
      "%s".toList [Arg.str "x".toList]).1 = 0 ∧
    last_error_get_message (last_error_set State.start 10
      (List.replicate 10241 (Char.ofNat 97)) 1 "g".toList "%s".toList
      [Arg.str "x".toList]).2 = []) :=
  have h : 10240 < strlen (List.replicate 10241 (Char.ofNat 97)) := by
    rw [strlen_replicate_a]
    decide
  ⟨h, long_file_truncated_and_refused State.start 10
    (List.replicate 10241 (Char.ofNat 97)) 1 "g".toList "%s".toList
    [Arg.str "x".toList] h⟩

/-! ## C8: the message in every reachable state -/

theorem write_length (buf : List Char) (off : Nat) (data : List Char)
    (h : off + data.length ≤ buf.length) : (write buf off data).length = buf.length := by
  unfold write
  simp only [List.length_append, List.length_take, List.length_drop]
  omega

theorem strncpy_length (dst src : List Char) (n : Nat) (h : dst.length = n) :
    (strncpy dst src n).length = n := by
  unfold strncpy
  rw [write_length, h]
  simp only [List.length_append, List.length_take, List.length_replicate, strlen]
  omega

theorem cstr_length_le (p : List Char) : (cstr p).length ≤ p.length :=
  (List.takeWhile_sublist _).length_le

theorem cstr_terminator (p : List Char) (h : (cstr p).length < p.length) :
    p[(cstr p).length]? = some NUL := by
  induction p with
  | nil => simp at h
  | cons c p ih =>
    by_cases hc : c = NUL
    · subst hc
      simp [cstr]
    · have e : cstr (c :: p) = c :: cstr p := by
        simp [cstr, List.takeWhile_cons, hc]
      rw [e] at h ⊢
      simp only [List.length_cons, Nat.add_lt_add_iff_right] at h
      simpa using ih h

theorem stored_sized (s : State) (id : Int) (file : List Char) (line : Int)
    (function : List Char) (m : List Char) (hs : s.sized)
    (hm : m.length = LAST_ERROR_MESSAGE_BUFFER_CAPACITY) :
    ({ stored s id file line function with LAST_ERROR_MESSAGE := m } : State).sized := by
  obtain ⟨h1, _, h3⟩ := hs
  refine ⟨?_, hm, ?_⟩
  · show ((strncpy s.LAST_ERROR_FILE file LAST_ERROR_FILE_BUFFER_CAPACITY).set
      (LAST_ERROR_FILE_BUFFER_CAPACITY - 1) NUL).length = LAST_ERROR_FILE_BUFFER_CAPACITY
    rw [List.length_set, strncpy_length _ _ _ h1]
  · show ((strncpy s.LAST_ERROR_FUNCTION function LAST_ERROR_FUNCTION_BUFFER_CAPACITY).set
      (LAST_ERROR_FUNCTION_BUFFER_CAPACITY - 1) NUL).length
        = LAST_ERROR_FUNCTION_BUFFER_CAPACITY
    rw [List.length_set, strncpy_length _ _ _ h3]

theorem head_write_length (buf H : List Char) (h : buf.length = 200) :
    (write buf 0 (H.take 199 ++ [NUL])).length = 200 := by
  rw [write_length, h]
  simp only [List.length_append, List.length_take, List.length_cons, List.length_nil]
  omega

theorem body_write_length (buf H body : List Char) (h : buf.length = 200)
    (hH : H.length ≤ 199) :
    (write buf H.length (body.take (200 - H.length - 1) ++ [NUL])).length = 200 := by
  rw [write_length, h]
  simp only [List.length_append, List.length_take, List.length_cons, List.length_nil]
  omega

theorem last_error_set_sized (s : State) (id : Int) (file : List Char) (line : Int)
    (function fmt : List Char) (args : List Arg) (hs : s.sized) :
    (last_error_set s id file line function fmt args).2.sized := by
  have hm : s.LAST_ERROR_MESSAGE.length = 200 := hs.2.1
  have hH := expand_head_format id file line function
  generalize head_text id file line function = H at hH
  by_cases h : 200 ≤ H.length
  · rw [set_head_overflow s id file line function fmt args H hH h]
    apply stored_sized _ _ _ _ _ _ hs
    rw [List.length_set]
    exact head_write_length _ _ hm
  · cases he : expand fmt args with
    | none =>
      rw [set_body_error s id file line function fmt args H hH (by omega) he]
      apply stored_sized _ _ _ _ _ _ hs
      rw [List.length_set]
      exact head_write_length _ _ hm
    | some body =>
      rw [set_body s id file line function fmt args H body hH (by omega) he]
      split_ifs
      · apply stored_sized _ _ _ _ _ _ hs
        rw [List.length_set]
        exact body_write_length _ _ _ (head_write_length _ _ hm) (by omega)
      · apply stored_sized _ _ _ _ _ _ hs
        exact body_write_length _ _ _ (head_write_length _ _ hm) (by omega)

theorem last_error_init_sized (s : State) (hs : s.sized) : (last_error_init s).sized := by
  obtain ⟨h1, h2, h3⟩ := hs
  refine ⟨?_, ?_, ?_⟩
  · show (s.LAST_ERROR_FILE.set 0 NUL).length = _
    rw [List.length_set, h1]
  · show (s.LAST_ERROR_MESSAGE.set 0 NUL).length = _
    rw [List.length_set, h2]
  · show (s.LAST_ERROR_FUNCTION.set 0 NUL).length = _
    rw [List.length_set, h3]

theorem step_sized (s : State) (c : Call) (hs : s.sized) : (step s c).sized := by
  cases c with
  | init => exact last_error_init_sized s hs
  | set id file line function fmt args =>
    exact last_error_set_sized s id file line function fmt args hs

theorem run_sized (calls : List Call) : ∀ (s : State), s.sized → (run s calls).sized := by
  induction calls with
  | nil => exact fun s hs => hs
  | cons c calls ih => exact fun s hs => ih (step s c) (step_sized s c hs)

theorem run_concat (s : State) (calls : List Call) (c : Call) :
    run s (calls ++ [c]) = step (run s calls) c := by
  unfold run
  rw [List.foldl_append]
  rfl

/-- The message after any call of `last_error_set`: empty, or the whole text. -/
theorem set_message_cases (s : State) (id : Int) (file : List Char) (line : Int)
    (function fmt : List Char) (args : List Arg) :
    last_error_get_message (last_error_set s id file line function fmt args).2 = [] ∨
    ∃ body, expand fmt args = some body ∧
      (head_text id file line function).length + body.length ≤ 199 ∧
      last_error_get_message (last_error_set s id file line function fmt args).2
        = head_text id file line function ++ body := by
  cases he : expand fmt args with
  | none => exact Or.inl (set_fail_of_error s id file line function fmt args he).2
  | some body =>
    by_cases hfit : 200 ≤ (head_text id file line function).length + body.length
    · exact Or.inl (set_fail_of_long s id file line function fmt args body he hfit).2
    · exact Or.inr ⟨body, rfl, by omega,
        (set_ok s id file line function fmt args body he (by omega)).2⟩

theorem state_start_sized : State.start.sized := by
  refine ⟨?_, ?_, ?_⟩ <;> exact List.length_replicate _ _

/-- C8: in every state reached from `last_error_init` by a sequence of `last_error_set`
and `last_error_init` calls, the message buffer has its 200 bytes, the message has at most
199 characters and is followed by its terminator inside the buffer, and the message is
either empty or the whole text (first part and body) of the most recent call, which is
then a `last_error_set` call whose format expanded to that body. -/
theorem message_invariant (s0 : State) (calls : List Call) (h0 : s0.sized) :
    (run (last_error_init s0) calls).LAST_ERROR_MESSAGE.length = 200 ∧
    (last_error_get_message (run (last_error_init s0) calls)).length ≤ 199 ∧
    (run (last_error_init s0) calls).LAST_ERROR_MESSAGE[
      (last_error_get_message (run (last_error_init s0) calls)).length]? = some NUL ∧
    (last_error_get_message (run (last_error_init s0) calls) = [] ∨
      ∃ (earlier : List Call) (id : Int) (file : List Char) (line : Int)
          (function fmt : List Char) (args : List Arg) (body : List Char),
        calls = earlier ++ [Call.set id file line function fmt args] ∧
        expand fmt args = some body ∧
        last_error_get_message (run (last_error_init s0) calls)
          = head_text id file line function ++ body) := by
  have hsz := run_sized calls (last_error_init s0) (last_error_init_sized s0 h0)
  have hlen : (run (last_error_init s0) calls).LAST_ERROR_MESSAGE.length = 200 := hsz.2.1
  have key : last_error_get_message (run (last_error_init s0) calls) = [] ∨
      ∃ (earlier : List Call) (id : Int) (file : List Char) (line : Int)
          (function fmt : List Char) (args : List Arg) (body : List Char),
        calls = earlier ++ [Call.set id file line function fmt args] ∧
        expand fmt args = some body ∧
        (head_text id file line function).length + body.length ≤ 199 ∧
        last_error_get_message (run (last_error_init s0) calls)
          = head_text id file line function ++ body := by
    rcases List.eq_nil_or_concat calls with rfl | ⟨earlier, c, rfl⟩
    · exact Or.inl (cstr_set_zero _)
    · simp only [List.concat_eq_append]
      rw [run_concat]
      cases c with
      | init => exact Or.inl (cstr_set_zero _)
      | set id file line function fmt args =>
        rcases set_message_cases (run (last_error_init s0) earlier) id file line function
          fmt args with h | ⟨body, he, hfit, hmsg⟩
        · exact Or.inl h
        · exact Or.inr ⟨earlier, id, file, line, function, fmt, args, body, rfl, he, hfit,
            hmsg⟩
  have hshort : (last_error_get_message (run (last_error_init s0) calls)).length ≤ 199 := by
    rcases key with h | ⟨_, _, _, _, _, _, _, body, _, _, hfit, hmsg⟩
    · rw [h]
      exact Nat.zero_le _
    · rw [hmsg, List.length_append]
      exact hfit
  refine ⟨hlen, hshort, ?_, ?_⟩
  · apply cstr_terminator
    unfold last_error_get_message at hshort
    omega
  · rcases key with h | ⟨earlier, id, file, line, function, fmt, args, body, hc, he, _, hmsg⟩
    · exact Or.inl h
    · exact Or.inr ⟨earlier, id, file, line, function, fmt, args, body, hc, he, hmsg⟩

/-- C8 at the run `last_error_init(); last_error_set(10, "f.c", 1, "g", "%s", "x")` from
the storage of program start. -/
theorem message_invariant_witness :
    State.start.sized ∧
    ((run (last_error_init State.start)
        [Call.set 10 "f.c".toList 1 "g".toList "%s".toList [Arg.str "x".toList]]
      ).LAST_ERROR_MESSAGE.length = 200 ∧
    (last_error_get_message (run (last_error_init State.start)
        [Call.set 10 "f.c".toList 1 "g".toList "%s".toList [Arg.str "x".toList]])
      ).length ≤ 199 ∧
    (run (last_error_init State.start)
        [Call.set 10 "f.c".toList 1 "g".toList "%s".toList [Arg.str "x".toList]]
      ).LAST_ERROR_MESSAGE[
        (last_error_get_message (run (last_error_init State.start)
          [Call.set 10 "f.c".toList 1 "g".toList "%s".toList [Arg.str "x".toList]])
        ).length]? = some NUL ∧
    (last_error_get_message (run (last_error_init State.start)
        [Call.set 10 "f.c".toList 1 "g".toList "%s".toList [Arg.str "x".toList]]) = [] ∨
      ∃ (earlier : List Call) (id : Int) (file : List Char) (line : Int)
          (function fmt : List Char) (args : List Arg) (body : List Char),
        [Call.set 10 "f.c".toList 1 "g".toList "%s".toList [Arg.str "x".toList]]
          = earlier ++ [Call.set id file line function fmt args] ∧
        expand fmt args = some body ∧
        last_error_get_message (run (last_error_init State.start)
          [Call.set 10 "f.c".toList 1 "g".toList "%s".toList [Arg.str "x".toList]])
          = head_text id file line function ++ body)) :=
  ⟨state_start_sized, message_invariant State.start
    [Call.set 10 "f.c".toList 1 "g".toList "%s".toList [Arg.str "x".toList]]
    state_start_sized⟩

/-! ## C9 and C10: empty inputs -/

/-- C9: when the first part `#<id> [<file>:<line> <function>()] ` has at most 199
characters, `last_error_set` with the format `%s` and an empty string as its argument
returns 1 and leaves the first part alone as the message. -/
theorem last_error_set_empty_body (s : State) (id : Int) (file : List Char) (line : Int)
    (function : List Char)
    (h : (head_text id file line function).length ≤ 199) :
    (last_error_set s id file line function "%s".toList [Arg.str "".toList]).1 = 1 ∧
    last_error_get_message
      (last_error_set s id file line function "%s".toList [Arg.str "".toList]).2
      = head_text id file line function := by
  have he : expand "%s".toList [Arg.str "".toList] = some [] := expand_percent_s _ _
  have hok := set_ok s id file line function "%s".toList [Arg.str "".toList] [] he
    (by rw [List.length_nil]; omega)
  rw [List.append_nil] at hok
  exact hok

/-- C9 at the call of `test_empty_message`: identifier 10 and short names. -/
theorem last_error_set_empty_body_witness :
    (head_text 10 "test_error_reporting.c".toList 134 "test_empty_message".toList).length
      ≤ 199 ∧
    ((last_error_set State.start 10 "test_error_reporting.c".toList 134
      "test_empty_message".toList "%s".toList [Arg.str "".toList]).1 = 1 ∧
    last_error_get_message
      (last_error_set State.start 10 "test_error_reporting.c".toList 134
        "test_empty_message".toList "%s".toList [Arg.str "".toList]).2
      = head_text 10 "test_error_reporting.c".toList 134 "test_empty_message".toList) :=
  have h : (head_text 10 "test_error_reporting.c".toList 134
      "test_empty_message".toList).length ≤ 199 := by
    simp [head_text, fmt_int, decimal, cstr, NUL]
  ⟨h, last_error_set_empty_body State.start 10 "test_error_reporting.c".toList 134
    "test_empty_message".toList h⟩

theorem fmt_int_length_le (zero : Bool) (w : Nat) (v : Int) (hw : w ≤ 20)
    (hlo : -2 ^ 63 ≤ v) (hhi : v < 2 ^ 63) : (fmt_int zero w v).length ≤ 20 := by
  rw [fmt_int_length]
  by_cases hv : v < 0
  · have hd := decimal_length_le v.natAbs 19 (by decide) (by omega)
    rw [if_pos hv]
    omega
  · have hd := decimal_length_le v.natAbs 19 (by decide) (by omega)
    rw [if_neg hv]
    omega

theorem expand_empty (fmt : List Char) (args : List Arg) (h : cstr fmt = []) :
    expand fmt args = some [] := by
  unfold expand
  rw [h]
  rfl

/-- C10: for every identifier and line in the range of a 64-bit `long`, `last_error_set`
with an empty file, an empty function and an empty format returns 1 and leaves the message
`#`, the identifier zero-padded to 10 digits, ` [:`, the line, ` ()] `; this first part
has at most 49 characters. -/
theorem last_error_set_empty_texts (s : State) (id line : Int)
    (file function fmt : List Char) (args : List Arg)
    (hid : -2 ^ 63 ≤ id ∧ id < 2 ^ 63) (hline : -2 ^ 63 ≤ line ∧ line < 2 ^ 63)
    (hfile : cstr file = []) (hfunction : cstr function = []) (hfmt : cstr fmt = []) :
    (last_error_set s id file line function fmt args).1 = 1 ∧
    last_error_get_message (last_error_set s id file line function fmt args).2
      = "#".toList ++ fmt_int true 10 id ++ " [:".toList ++ fmt_int false 0 line
        ++ " ()] ".toList ∧
    (last_error_get_message (last_error_set s id file line function fmt args).2).length
      ≤ 49 := by
  have h1 := fmt_int_length_le true 10 id (by decide) hid.1 hid.2
  have h2 := fmt_int_length_le false 0 line (by decide) hline.1 hline.2
  have hlen := head_text_length id file line function
  unfold strlen at hlen
  rw [hfile, hfunction, List.length_nil] at hlen
  have hok := set_ok s id file line function fmt args [] (expand_empty fmt args hfmt)
    (by rw [List.length_nil]; omega)
  rw [List.append_nil] at hok
  refine ⟨hok.1, ?_, ?_⟩
  · rw [hok.2]
    unfold head_text
    rw [hfile, hfunction]
    simp only [List.append_nil, List.append_assoc]
    rfl
  · rw [hok.2]
    omega

/-- C10 at the most negative identifier and line. -/
theorem last_error_set_empty_texts_witness :
    ((-2 ^ 63 ≤ (-9223372036854775808 : Int) ∧ (-9223372036854775808 : Int) < 2 ^ 63) ∧
      (-2 ^ 63 ≤ (-9223372036854775808 : Int) ∧ (-9223372036854775808 : Int) < 2 ^ 63) ∧
      cstr "".toList = [] ∧ cstr "".toList = [] ∧ cstr "".toList = []) ∧
    ((last_error_set (last_error_init State.start) (-9223372036854775808) "".toList
        (-9223372036854775808) "".toList "".toList []).1 = 1 ∧
    last_error_get_message (last_error_set (last_error_init State.start)
        (-9223372036854775808) "".toList (-9223372036854775808) "".toList "".toList []).2
      = "#".toList ++ fmt_int true 10 (-9223372036854775808) ++ " [:".toList
        ++ fmt_int false 0 (-9223372036854775808) ++ " ()] ".toList ∧
    (last_error_get_message (last_error_set (last_error_init State.start)
        (-9223372036854775808) "".toList (-9223372036854775808) "".toList "".toList []).2
      ).length ≤ 49) :=
  ⟨⟨by decide, by decide, rfl, rfl, rfl⟩,
    last_error_set_empty_texts (last_error_init State.start) (-9223372036854775808)
      (-9223372036854775808) "".toList "".toList "".toList [] (by decide) (by decide)
      rfl rfl rfl⟩

/-! ## C11: `last_error_init` twice, and from two states -/

/-- C11: `last_error_init` is idempotent, `init (init s) = init s`, and state-independent:
the register that the five getters read (identifier, line, file, function and message) is
the same after `last_error_init` from any two states, be they the result of a successful
or of a failing `last_error_set`: -1, -1 and three empty strings. -/
theorem last_error_init_idempotent (s s1 s2 : State) :
    last_error_init (last_error_init s) = last_error_init s ∧
    observe (last_error_init (last_error_init s)) = observe (last_error_init s) ∧
    observe (last_error_init s1) = observe (last_error_init s2) ∧
    observe (last_error_init s1) = (-1, -1, [], [], []) := by
  have hobs : ∀ t : State, observe (last_error_init t) = (-1, -1, [], [], []) := by
    intro t
    unfold observe
    rw [show last_error_get_id (last_error_init t) = -1 from rfl,
      show last_error_get_line (last_error_init t) = -1 from rfl,
      show last_error_get_file (last_error_init t) = [] from cstr_set_zero _,
      show last_error_get_function (last_error_init t) = [] from cstr_set_zero _,
      show last_error_get_message (last_error_init t) = [] from cstr_set_zero _]
  refine ⟨?_, ?_, ?_, hobs s1⟩
  · unfold last_error_init
    simp only [List.set_set]
  · rw [hobs, hobs]
  · rw [hobs, hobs]

/-! ## C12: the getters -/

/-- C12: a call of any of the five getters leaves the whole register as it found it, so
the same getter called again returns the same value and every other getter returns what
it would have returned without the first call. -/
theorem getters_have_no_effect (g g2 : Getter) (s : State) :
    (call_getter g s).2 = s ∧
    (call_getter g (call_getter g s).2).1 = (call_getter g s).1 ∧
    (call_getter g2 (call_getter g s).2).1 = (call_getter g2 s).1 ∧
    (call_getter Getter.id s).1 = Value.number (last_error_get_id s) ∧
    (call_getter Getter.line s).1 = Value.number (last_error_get_line s) ∧
    (call_getter Getter.message s).1 = Value.text (last_error_get_message s) ∧
    (call_getter Getter.file s).1 = Value.text (last_error_get_file s) ∧
    (call_getter Getter.function s).1 = Value.text (last_error_get_function s) := by
  have h : (call_getter g s).2 = s := by
    cases g <;> rfl
  refine ⟨h, ?_, ?_, rfl, rfl, rfl, rfl, rfl⟩
  · rw [h]
  · rw [h]

/-! ## C13: the last writer wins -/

/-- The value returned and the message left by a call, from its arguments alone. -/
theorem set_outcome (s : State) (id : Int) (file : List Char) (line : Int)
    (function fmt : List Char) (args : List Arg) :
    ((last_error_set s id file line function fmt args).1,
      last_error_get_message (last_error_set s id file line function fmt args).2)
    = match expand fmt args with
      | none => (0, [])
      | some body =>
        if (head_text id file line function).length + body.length ≤ 199 then
          (1, head_text id file line function ++ body)
        else (0, []) := by
  cases he : expand fmt args with
  | none =>
    have h := set_fail_of_error s id file line function fmt args he
    rw [h.1, h.2]
  | some body =>
    by_cases hfit : (head_text id file line function).length + body.length ≤ 199
    · have h := set_ok s id file line function fmt args body he hfit
      rw [h.1, h.2]
      exact (if_pos hfit).symm
    · have h := set_fail_of_long s id file line function fmt args body he (by omega)
      rw [h.1, h.2]
      exact (if_neg hfit).symm

/-- C13: the value `last_error_set` returns and the values the five getters return
afterwards are the same from any two prior states: they depend on the arguments of the
call alone, and nothing of what the register held before can be read. -/
theorem last_error_set_last_writer_wins (s1 s2 : State) (id : Int) (file : List Char)
    (line : Int) (function fmt : List Char) (args : List Arg) :
    (last_error_set s1 id file line function fmt args).1
      = (last_error_set s2 id file line function fmt args).1 ∧
    last_error_get_id (last_error_set s1 id file line function fmt args).2
      = last_error_get_id (last_error_set s2 id file line function fmt args).2 ∧
    last_error_get_line (last_error_set s1 id file line function fmt args).2
      = last_error_get_line (last_error_set s2 id file line function fmt args).2 ∧
    last_error_get_file (last_error_set s1 id file line function fmt args).2
      = last_error_get_file (last_error_set s2 id file line function fmt args).2 ∧
    last_error_get_function (last_error_set s1 id file line function fmt args).2
      = last_error_get_function (last_error_set s2 id file line function fmt args).2 ∧
    last_error_get_message (last_error_set s1 id file line function fmt args).2
      = last_error_get_message (last_error_set s2 id file line function fmt args).2 := by
  have h := (set_outcome s1 id file line function fmt args).trans
    (set_outcome s2 id file line function fmt args).symm
  rw [Prod.mk.injEq] at h
  refine ⟨h.1, ?_, ?_, ?_, ?_, h.2⟩
  · rw [last_error_set_id, last_error_set_id]
  · rw [last_error_set_line, last_error_set_line]
  · rw [last_error_set_file, last_error_set_file]
  · rw [last_error_set_function, last_error_set_function]

/-- An earlier, longer message and file name leave no trace: after
`last_error_set(1, "a_long_file_name.c", 7, "f", "%s", "a long message")` the call
`last_error_set(2, "b.c", 8, "g", "%s", "x")` leaves exactly its own texts. -/
theorem shorter_call_after_longer (s : State) :
    observe (last_error_set
      (last_error_set s 1 "a_long_file_name.c".toList 7 "f".toList "%s".toList
        [Arg.str "a long message".toList]).2
      2 "b.c".toList 8 "g".toList "%s".toList [Arg.str "x".toList]).2
    = (2, 8, "b.c".toList, "g".toList, "#0000000002 [b.c:8 g()] x".toList) := by
  have hh : head_text 2 "b.c".toList 8 "g".toList = "#0000000002 [b.c:8 g()] ".toList := by
    simp [head_text, fmt_int, decimal, cstr, NUL]
    decide
  have h := set_ok (last_error_set s 1 "a_long_file_name.c".toList 7 "f".toList "%s".toList
    [Arg.str "a long message".toList]).2 2 "b.c".toList 8 "g".toList "%s".toList
    [Arg.str "x".toList] "x".toList (expand_percent_s _ _) (by rw [hh]; decide)
  unfold observe
  rw [last_error_set_id, last_error_set_line, last_error_set_file, last_error_set_function,
    h.2, hh]
  decide

theorem strncpy_overwrites (dst1 dst2 src : List Char) (n : Nat) (h1 : dst1.length = n)
    (h2 : dst2.length = n) : strncpy dst1 src n = strncpy dst2 src n := by
  have hlen : ((cstr src).take n ++ List.replicate (n - strlen src) NUL).length = n := by
    simp only [List.length_append, List.length_take, List.length_replicate, strlen]
    omega
  unfold strncpy write
  rw [Nat.zero_add, hlen, List.drop_of_length_le (by omega), List.drop_of_length_le (by omega)]
  rfl

/-- The file and function buffers after a call are the same byte for byte from any two
prior states of the declared sizes: `strncpy` writes all their bytes. -/
theorem set_name_buffers_determined (s1 s2 : State) (id : Int) (file : List Char)
    (line : Int) (function fmt : List Char) (args : List Arg) (h1 : s1.sized)
    (h2 : s2.sized) :
    (last_error_set s1 id file line function fmt args).2.LAST_ERROR_FILE
      = (last_error_set s2 id file line function fmt args).2.LAST_ERROR_FILE ∧
    (last_error_set s1 id file line function fmt args).2.LAST_ERROR_FUNCTION
      = (last_error_set s2 id file line function fmt args).2.LAST_ERROR_FUNCTION := by
  obtain ⟨r1, m1, e1⟩ := set_shape s1 id file line function fmt args
  obtain ⟨r2, m2, e2⟩ := set_shape s2 id file line function fmt args
  rw [e1, e2]
  constructor
  · show (strncpy s1.LAST_ERROR_FILE file LAST_ERROR_FILE_BUFFER_CAPACITY).set _ NUL
      = (strncpy s2.LAST_ERROR_FILE file LAST_ERROR_FILE_BUFFER_CAPACITY).set _ NUL
    rw [strncpy_overwrites _ _ _ _ h1.1 h2.1]
  · show (strncpy s1.LAST_ERROR_FUNCTION function LAST_ERROR_FUNCTION_BUFFER_CAPACITY).set _ NUL
      = (strncpy s2.LAST_ERROR_FUNCTION function LAST_ERROR_FUNCTION_BUFFER_CAPACITY).set _ NUL
    rw [strncpy_overwrites _ _ _ _ h1.2.2 h2.2.2]

/-! ## C14: the identifier in the message -/

theorem digit_value_digitChar (d : Nat) (h : d < 10) : digit_value (Nat.digitChar d) = d := by
  interval_cases d <;> decide

theorem read_digits_append (a b : List Char) :
    read_digits (a ++ b) = b.foldl (fun acc c => 10 * acc + digit_value c) (read_digits a) := by
  unfold read_digits
  rw [List.foldl_append]

theorem read_digits_zeros (k : Nat) : read_digits (List.replicate k (Char.ofNat 48)) = 0 := by
  induction k with
  | zero => rfl
  | succ k ih =>
    rw [List.replicate_succ', read_digits_append, ih]
    rfl

theorem read_digits_pad (k : Nat) (l : List Char) :
    read_digits (List.replicate k (Char.ofNat 48) ++ l) = read_digits l := by
  rw [read_digits_append, read_digits_zeros]
  rfl

theorem read_digits_of_digits (L : List Nat) (hL : ∀ d ∈ L, d < 10) :
    read_digits (L.reverse.map Nat.digitChar) = Nat.ofDigits 10 L := by
  induction L with
  | nil => rfl
  | cons d L ih =>
    have hd : d < 10 := hL d (List.mem_cons_self _ _)
    have hL2 : ∀ x ∈ L, x < 10 := fun x hx => hL x (List.mem_cons_of_mem _ hx)
    rw [List.reverse_cons, List.map_append, read_digits_append, ih hL2]
    simp only [List.map_cons, List.map_nil, List.foldl_cons, List.foldl_nil,
      digit_value_digitChar d hd, Nat.ofDigits_cons]
    omega

theorem read_digits_decimal (n : Nat) : read_digits (decimal n) = n := by
  unfold decimal
  split_ifs with h
  · rw [h]
    rfl
  · rw [read_digits_of_digits _ (fun d hd => Nat.digits_lt_base (by decide) hd),
      Nat.ofDigits_digits]

theorem decimal_head_ne_minus (n : Nat) (l : List Char) (k : Nat) :
    ∃ c cs, List.replicate k (Char.ofNat 48) ++ decimal n ++ l = c :: cs ∧
      c ≠ Char.ofNat 45 := by
  cases k with
  | succ k => exact ⟨_, _, rfl, by decide⟩
  | zero =>
    have hpos := decimal_length_pos n
    have hmem : ∀ c ∈ decimal n, c ≠ Char.ofNat 45 := by
      intro c hc
      unfold decimal at hc
      split_ifs at hc
      · rw [List.mem_singleton] at hc
        rw [hc]
        decide
      · rw [List.mem_map] at hc
        obtain ⟨d, hd, rfl⟩ := hc
        have hlt : d < 10 := Nat.digits_lt_base (by decide) (List.mem_reverse.mp hd)
        interval_cases d <;> decide
    cases hdec : decimal n with
    | nil => rw [hdec] at hpos; simp at hpos
    | cons c cs =>
      refine ⟨c, cs ++ l, by simp, hmem c ?_⟩
      rw [hdec]
      exact List.mem_cons_self _ _

/-- The field of `%010ld` reads back as the number formatted. -/
theorem read_long_fmt_int (w : Nat) (v : Int) : read_long (fmt_int true w v) = v := by
  unfold fmt_int
  simp only [ite_true]
  by_cases hv : v < 0
  · rw [if_pos hv]
    simp only [List.singleton_append, List.cons_append, List.nil_append, read_long, ite_true,
      List.length_cons, List.length_nil]
    rw [read_digits_pad, read_digits_decimal]
    omega
  · rw [if_neg hv]
    simp only [List.nil_append, List.length_nil, Nat.zero_add]
    obtain ⟨c, cs, hcs, hc⟩ := decimal_head_ne_minus v.natAbs [] (w - (decimal v.natAbs).length)
    rw [List.append_nil] at hcs
    rw [hcs]
    simp only [read_long, if_neg hc]
    rw [← hcs, read_digits_pad, read_digits_decimal]
    omega

theorem head_format_field (id : Int) (file : List Char) (line : Int) (function : List Char) :
    expand HEAD_FORMAT [Arg.long id, Arg.str file, Arg.long line, Arg.str function]
      = some ("#".toList ++ fmt_int true 10 id ++ " [".toList ++
          (cstr file ++ ":".toList ++ fmt_int false 0 line ++ " ".toList ++ cstr function ++
            "()] ".toList)) := by
  rw [expand_head_format]
  unfold head_text
  simp only [List.append_assoc]

theorem fmt_int_nonneg (v : Int) (hv : 0 ≤ v) :
    fmt_int true 10 v
      = List.replicate (10 - (decimal v.toNat).length) (Char.ofNat 48) ++ decimal v.toNat := by
  have e : v.natAbs = v.toNat := by omega
  have hn : ¬ v < 0 := by omega
  unfold fmt_int
  rw [if_neg hn, e]
  simp only [ite_true, List.nil_append, List.length_nil, Nat.zero_add]

theorem fmt_int_neg (v : Int) (hv : v < 0) :
    fmt_int true 10 v
      = Char.ofNat 45 :: (List.replicate (9 - (decimal v.natAbs).length) (Char.ofNat 48)
          ++ decimal v.natAbs) := by
  unfold fmt_int
  rw [if_pos hv]
  simp only [ite_true, List.singleton_append, List.cons_append, List.length_cons,
    List.length_nil, List.cons.injEq, true_and, List.nil_append, Nat.zero_add]
  rw [show 10 - (1 + (decimal v.natAbs).length) = 9 - (decimal v.natAbs).length from by omega]

theorem decimal_length_ge (n e : Nat) (h : 10 ^ e ≤ n) : e + 1 ≤ (decimal n).length := by
  have hn : n ≠ 0 := by
    have : 0 < 10 ^ e := by positivity
    omega
  unfold decimal
  rw [if_neg hn, List.length_map, List.length_reverse]
  have h1 := Nat.lt_base_pow_length_digits (b := 10) (m := n) (by decide)
  by_contra hc
  have h2 : 10 ^ (Nat.digits 10 n).length ≤ 10 ^ e :=
    Nat.pow_le_pow_right (by decide) (by omega)
  omega

/-- The field `%010ld` writes for `id`: 10 characters, zero-padded, when `id` fits in
them, the sign and all the digits otherwise; it reads back as `id`. -/
theorem zero_padded_field (id : Int) :
    (0 ≤ id → id ≤ 9999999999 →
      (fmt_int true 10 id).length = 10 ∧
      fmt_int true 10 id = List.replicate (10 - (decimal id.toNat).length) (Char.ofNat 48)
        ++ decimal id.toNat) ∧
    (id < 0 → -999999999 ≤ id →
      (fmt_int true 10 id).length = 10 ∧
      fmt_int true 10 id = Char.ofNat 45 ::
        (List.replicate (9 - (decimal id.natAbs).length) (Char.ofNat 48)
          ++ decimal id.natAbs)) ∧
    (9999999999 < id →
      fmt_int true 10 id = decimal id.toNat ∧ 10 < (fmt_int true 10 id).length) ∧
    (id < -999999999 →
      fmt_int true 10 id = Char.ofNat 45 :: decimal id.natAbs ∧
      10 < (fmt_int true 10 id).length) ∧
    read_long (fmt_int true 10 id) = id := by
  refine ⟨?_, ?_, ?_, ?_, read_long_fmt_int 10 id⟩
  · intro h0 h1
    have hd := decimal_length_le id.toNat 10 (by decide) (by omega)
    refine ⟨?_, fmt_int_nonneg id h0⟩
    rw [fmt_int_length, if_neg (by omega)]
    have e : id.natAbs = id.toNat := by omega
    rw [e]
    omega
  · intro h0 h1
    have hd := decimal_length_le id.natAbs 9 (by decide) (by omega)
    refine ⟨?_, fmt_int_neg id h0⟩
    rw [fmt_int_length, if_pos h0]
    omega
  · intro h1
    have hd := decimal_length_ge id.toNat 10 (by omega)
    rw [fmt_int_nonneg id (by omega)]
    rw [show 10 - (decimal id.toNat).length = 0 from by omega]
    exact ⟨rfl, by simpa using hd⟩
  · intro h1
    have hd := decimal_length_ge id.natAbs 9 (by omega)
    rw [fmt_int_neg id (by omega)]
    rw [show 9 - (decimal id.natAbs).length = 0 from by omega]
    refine ⟨rfl, ?_⟩
    simp only [List.replicate_zero, List.nil_append, List.length_cons]
    omega

/-- C14: in the message that a successful `last_error_set` leaves, the identifier field
stands between `#` and ` [`, followed by the file, `:`, the line, a blank, the function,
`()] ` and the body. For `0 ≤ id ≤ 9999999999` the field is the decimal digits of `id`
padded on the left with `0` to exactly 10 characters; for `-999999999 ≤ id < 0` it is `-`
followed by the digits padded with `0` so that the field has exactly 10 characters; an
identifier that needs more than 10 characters is written with all its digits (and its
sign) and no padding; in every case the field reads back as `id`. -/
theorem message_identifier_field (s : State) (id : Int) (file : List Char) (line : Int)
    (function fmt : List Char) (args : List Arg)
    (h : (last_error_set s id file line function fmt args).1 = 1) :
    ∃ (field body : List Char),
      expand fmt args = some body ∧
      last_error_get_message (last_error_set s id file line function fmt args).2
        = "#".toList ++ field ++ " [".toList ++ cstr file ++ ":".toList ++
          fmt_int false 0 line ++ " ".toList ++ cstr function ++ "()] ".toList ++ body ∧
      (0 ≤ id → id ≤ 9999999999 →
        field.length = 10 ∧
        field = List.replicate (10 - (decimal id.toNat).length) (Char.ofNat 48)
          ++ decimal id.toNat) ∧
      (id < 0 → -999999999 ≤ id →
        field.length = 10 ∧
        field = Char.ofNat 45 ::
          (List.replicate (9 - (decimal id.natAbs).length) (Char.ofNat 48)
            ++ decimal id.natAbs)) ∧
      (9999999999 < id → field = decimal id.toNat ∧ 10 < field.length) ∧
      (id < -999999999 →
        field = Char.ofNat 45 :: decimal id.natAbs ∧ 10 < field.length) ∧
      read_long field = id := by
  obtain ⟨body, he, hfit⟩ := set_ok_inv s id file line function fmt args h
  refine ⟨fmt_int true 10 id, body, he, ?_, zero_padded_field id⟩
  rw [(set_ok s id file line function fmt args body he hfit).2]
  rfl

/-- C14 at the call `last_error_set(-1, "f.c", 1, "g", "%s", "x")`. -/
theorem message_identifier_field_witness :
    (last_error_set State.start (-1) "f.c".toList 1 "g".toList "%s".toList
      [Arg.str "x".toList]).1 = 1 ∧
    (∃ (field body : List Char),
      expand "%s".toList [Arg.str "x".toList] = some body ∧
      last_error_get_message (last_error_set State.start (-1) "f.c".toList 1 "g".toList "%s".toList
          [Arg.str "x".toList]).2
        = "#".toList ++ field ++ " [".toList ++ cstr "f.c".toList ++ ":".toList ++
          fmt_int false 0 1 ++ " ".toList ++ cstr "g".toList ++ "()] ".toList ++ body ∧
      (0 ≤ (-1 : Int) → (-1 : Int) ≤ 9999999999 →
        field.length = 10 ∧
        field = List.replicate (10 - (decimal (-1 : Int).toNat).length) (Char.ofNat 48)
          ++ decimal (-1 : Int).toNat) ∧
      ((-1 : Int) < 0 → -999999999 ≤ (-1 : Int) →
        field.length = 10 ∧
        field = Char.ofNat 45 ::
          (List.replicate (9 - (decimal (-1 : Int).natAbs).length) (Char.ofNat 48)
            ++ decimal (-1 : Int).natAbs)) ∧
      (9999999999 < (-1 : Int) → field = decimal (-1 : Int).toNat ∧ 10 < field.length) ∧
      ((-1 : Int) < -999999999 →
        field = Char.ofNat 45 :: decimal (-1 : Int).natAbs ∧ 10 < field.length) ∧
      read_long field = -1) :=
  have h := (set_ok State.start (-1) "f.c".toList 1 "g".toList "%s".toList
    [Arg.str "x".toList] "x".toList (expand_percent_s _ _)
    (by simp [head_text, fmt_int, decimal, cstr, NUL])).1
  ⟨h, message_identifier_field State.start (-1) "f.c".toList 1 "g".toList "%s".toList
    [Arg.str "x".toList] h⟩

/-- The message of `last_error_set(-1, "f.c", 1, "g", "%s", "x")`, character for
character. -/
theorem minus_one_message (s : State) :
    last_error_get_message (last_error_set s (-1) "f.c".toList 1 "g".toList "%s".toList
      [Arg.str "x".toList]).2 = "#-000000001 [f.c:1 g()] x".toList := by
  have hh : head_text (-1) "f.c".toList 1 "g".toList = "#-000000001 [f.c:1 g()] ".toList := by
    simp [head_text, fmt_int, decimal, cstr, NUL]
    decide
  rw [(set_ok s (-1) "f.c".toList 1 "g".toList "%s".toList [Arg.str "x".toList] "x".toList
    (expand_percent_s _ _) (by rw [hh]; decide)).2, hh]
  decide

/-- The message of `last_error_set(12345678901, "f.c", 1, "g", "%s", "x")`: an identifier
of 11 digits is written whole. -/
theorem long_identifier_message (s : State) :
    last_error_get_message (last_error_set s 12345678901 "f.c".toList 1 "g".toList
      "%s".toList [Arg.str "x".toList]).2 = "#12345678901 [f.c:1 g()] x".toList := by
  have hh : head_text 12345678901 "f.c".toList 1 "g".toList
      = "#12345678901 [f.c:1 g()] ".toList := by
    simp [head_text, fmt_int, decimal, cstr, NUL]
    decide
  rw [(set_ok s 12345678901 "f.c".toList 1 "g".toList "%s".toList [Arg.str "x".toList]
    "x".toList (expand_percent_s _ _) (by rw [hh]; decide)).2, hh]
  decide

/-- The identifier -1 is written `-000000001`. -/
theorem identifier_minus_one : fmt_int true 10 (-1) = "-000000001".toList := by
  simp [fmt_int, decimal]
  decide

/-! ## C15: the line -1 -/

theorem set_since_init_concat (calls : List Call) (c : Call) :
    set_since_init (calls ++ [c]) = match c with
      | Call.init => false
      | Call.set _ _ _ _ _ _ => true := by
  unfold set_since_init
  rw [List.foldl_append]
  rfl

theorem lines_differ_concat_set (calls : List Call) (id : Int) (file : List Char)
    (line : Int) (function fmt : List Char) (args : List Arg)
    (h : lines_differ_from_sentinel (calls ++ [Call.set id file line function fmt args])
      = true) : line ≠ -1 := by
  induction calls with
  | nil =>
    simp only [List.nil_append, lines_differ_from_sentinel, Bool.and_true, bne_iff_ne,
      ne_eq] at h
    exact h
  | cons c calls ih =>
    cases c with
    | init => exact ih h
    | set id2 file2 line2 function2 fmt2 args2 =>
      simp only [List.cons_append, lines_differ_from_sentinel, Bool.and_eq_true] at h
      exact ih h.2

/-- The line after a run, from the last call of the run. -/
theorem line_after_run (s0 : State) (calls : List Call) :
    (calls = [] → last_error_get_line (run (last_error_init s0) calls) = -1) ∧
    (∀ earlier, calls = earlier ++ [Call.init] →
      last_error_get_line (run (last_error_init s0) calls) = -1) ∧
    (∀ earlier id file line function fmt args,
      calls = earlier ++ [Call.set id file line function fmt args] →
      last_error_get_line (run (last_error_init s0) calls) = line) := by
  refine ⟨?_, ?_, ?_⟩
  · rintro rfl
    rfl
  · rintro earlier rfl
    rw [run_concat]
    rfl
  · rintro earlier id file line function fmt args rfl
    rw [run_concat]
    exact last_error_set_line _ _ _ _ _ _ _

/-- Without a `last_error_set` since the last `last_error_init`, the line is -1. -/
theorem line_sentinel_of_no_set (s0 : State) (calls : List Call)
    (h : set_since_init calls = false) :
    last_error_get_line (run (last_error_init s0) calls) = -1 := by
  rcases List.eq_nil_or_concat calls with rfl | ⟨earlier, c, rfl⟩
  · rfl
  · simp only [List.concat_eq_append] at h ⊢
    cases c with
    | init => exact (line_after_run s0 _).2.1 earlier rfl
    | set id file line function fmt args =>
      rw [set_since_init_concat] at h
      exact Bool.noConfusion h

/-- C15, as stated, fails: after `last_error_init(); last_error_set(10, "f.c", -1, "g",
"%s", "x")` the line is -1 although a `last_error_set` call has happened since the last
`last_error_init`. -/
theorem sentinel_line_after_set :
    ¬ (last_error_get_line (run (last_error_init State.start)
          [Call.set 10 "f.c".toList (-1) "g".toList "%s".toList [Arg.str "x".toList]]) = -1 ↔
        set_since_init
          [Call.set 10 "f.c".toList (-1) "g".toList "%s".toList [Arg.str "x".toList]]
          = false) := by
  intro h
  have h1 := (line_after_run State.start
    [Call.set 10 "f.c".toList (-1) "g".toList "%s".toList [Arg.str "x".toList]]).2.2
    [] 10 "f.c".toList (-1) "g".toList "%s".toList [Arg.str "x".toList] rfl
  exact absurd (h.1 h1) (by decide)

/-- C15, amended: in every state reached from `last_error_init` by `last_error_set` and
`last_error_init` calls none of which is passed the line -1, `last_error_get_line`
returns -1 if and only if no `last_error_set` call has happened since the last
`last_error_init`. -/
theorem line_sentinel (s0 : State) (calls : List Call)
    (h : lines_differ_from_sentinel calls = true) :
    last_error_get_line (run (last_error_init s0) calls) = -1 ↔
      set_since_init calls = false := by
  constructor
  · intro hline
    rcases List.eq_nil_or_concat calls with rfl | ⟨earlier, c, rfl⟩
    · rfl
    · simp only [List.concat_eq_append] at h hline ⊢
      cases c with
      | init => exact set_since_init_concat earlier Call.init
      | set id file line function fmt args =>
        rw [(line_after_run s0 _).2.2 earlier id file line function fmt args rfl] at hline
        exact absurd hline (lines_differ_concat_set earlier id file line function fmt args h)
  · exact line_sentinel_of_no_set s0 calls

/-- C15, amended, at the run `last_error_init(); last_error_set(10, "f.c", 42, "g", "%s",
"x")`. -/
theorem line_sentinel_witness :
    lines_differ_from_sentinel
      [Call.set 10 "f.c".toList 42 "g".toList "%s".toList [Arg.str "x".toList]] = true ∧
    (last_error_get_line (run (last_error_init State.start)
        [Call.set 10 "f.c".toList 42 "g".toList "%s".toList [Arg.str "x".toList]]) = -1 ↔
      set_since_init
        [Call.set 10 "f.c".toList 42 "g".toList "%s".toList [Arg.str "x".toList]]
        = false) :=
  ⟨by decide, line_sentinel State.start
    [Call.set 10 "f.c".toList 42 "g".toList "%s".toList [Arg.str "x".toList]] (by decide)⟩

/-! ## C16: the lengths of the file and the function on success -/

/-- C16: the first part of the message has at least `20 + strlen file + strlen function`
characters; so a call of `last_error_set` that returns 1 has `strlen file + strlen function
≤ 179` and leaves the file and the function exactly as passed, uncut, and every call with
`strlen file + strlen function ≥ 180` returns 0 and leaves an empty message. -/
theorem success_bounds_names (s : State) (id : Int) (file : List Char) (line : Int)
    (function fmt : List Char) (args : List Arg) :
    20 + strlen file + strlen function ≤ (head_text id file line function).length ∧
    ((last_error_set s id file line function fmt args).1 = 1 →
      strlen file + strlen function ≤ 179 ∧
      last_error_get_file (last_error_set s id file line function fmt args).2
        = cstr file ∧
      last_error_get_function (last_error_set s id file line function fmt args).2
        = cstr function) ∧
    (180 ≤ strlen file + strlen function →
      (last_error_set s id file line function fmt args).1 = 0 ∧
      last_error_get_message (last_error_set s id file line function fmt args).2 = []) := by
  have hge := head_text_length_ge id file line function
  refine ⟨hge, ?_, ?_⟩
  · intro h
    obtain ⟨body, _, hfit⟩ := set_ok_inv s id file line function fmt args h
    unfold strlen at hge ⊢
    refine ⟨by omega, ?_, ?_⟩
    · rw [last_error_set_file, List.take_of_length_le (by omega)]
    · rw [last_error_set_function, List.take_of_length_le (by omega)]
  · intro h
    exact set_fail_of_head s id file line function fmt args (by omega)

/-! ## C17: the message and the other fields -/

/-- C17: in every state reached from `last_error_init` by a sequence of `last_error_set`
and `last_error_init` calls, the message is empty or starts with the first part rebuilt
from the values the getters return in that state: `#`, the identifier zero-padded to 10,
` [`, the file, `:`, the line, a blank, the function, `()] `. -/
theorem message_matches_fields (s0 : State) (calls : List Call) :
    last_error_get_message (run (last_error_init s0) calls) = [] ∨
    ∃ body : List Char,
      last_error_get_message (run (last_error_init s0) calls)
        = "#".toList ++ fmt_int true 10 (last_error_get_id (run (last_error_init s0) calls))
          ++ " [".toList ++ last_error_get_file (run (last_error_init s0) calls)
          ++ ":".toList
          ++ fmt_int false 0 (last_error_get_line (run (last_error_init s0) calls))
          ++ " ".toList ++ last_error_get_function (run (last_error_init s0) calls)
          ++ "()] ".toList ++ body := by
  rcases List.eq_nil_or_concat calls with rfl | ⟨earlier, c, rfl⟩
  · exact Or.inl (cstr_set_zero _)
  · simp only [List.concat_eq_append]
    rw [run_concat]
    cases c with
    | init => exact Or.inl (cstr_set_zero _)
    | set id file line function fmt args =>
      rcases set_message_cases (run (last_error_init s0) earlier) id file line function
        fmt args with h | ⟨body, _, hfit, hmsg⟩
      · exact Or.inl h
      · refine Or.inr ⟨body, ?_⟩
        have hge := head_text_length_ge id file line function
        unfold strlen at hge
        show last_error_get_message
            (last_error_set (run (last_error_init s0) earlier) id file line function fmt
              args).2 = _
        rw [show step (run (last_error_init s0) earlier)
            (Call.set id file line function fmt args)
          = (last_error_set (run (last_error_init s0) earlier) id file line function fmt
              args).2 from rfl]
        rw [hmsg, last_error_set_id, last_error_set_line, last_error_set_file,
          last_error_set_function, List.take_of_length_le (by omega),
          List.take_of_length_le (by omega)]
        rfl

/-! ## C18: the second write stays inside the message buffer -/

theorem head_call_eq (s : State) (id : Int) (file : List Char) (line : Int)
    (function : List Char) :
    head_call s id file line function
      = (printf_result (head_text id file line function).length,
          write s.LAST_ERROR_MESSAGE 0 ((head_text id file line function).take 199 ++ [NUL])) := by
  unfold head_call
  rw [vsnprintf_some (expand_head_format id file line function)]
  rfl

theorem reaches_body_iff (s : State) (id : Int) (file : List Char) (line : Int)
    (function : List Char) :
    reaches_body s id file line function ↔ (head_text id file line function).length ≤ 199 := by
  unfold reaches_body
  rw [head_call_eq]
  generalize (head_text id file line function).length = n
  have h := overflow_iff n 200 (le_refl _)
  constructor
  · intro hr
    by_contra hc
    exact hr (h.2 (by omega))
  · intro hn hr
    have := h.1 hr
    omega

theorem bytes_stored_le (size : Nat) (out : List Char) : bytes_stored size out ≤ size := by
  unfold bytes_stored
  split_ifs with h
  · exact Nat.zero_le _
  · simp only [List.length_append, List.length_take, List.length_cons, List.length_nil]
    omega

theorem vsnprintf_length (buf : List Char) (off size : Nat) (fmt : List Char)
    (args : List Arg) (h : off + size ≤ buf.length) :
    (vsnprintf buf off size fmt args).2.length = buf.length := by
  cases he : expand fmt args with
  | none => rw [vsnprintf_none he]
  | some out =>
    rw [vsnprintf_some he]
    show (if size = 0 then buf else write buf off (out.take (size - 1) ++ [NUL])).length = _
    split_ifs with h0
    · rfl
    · apply write_length
      simp only [List.length_append, List.length_take, List.length_cons, List.length_nil]
      omega

/-- C18: when `last_error_set` passes its first overflow test, the number `p` of
characters of the first part satisfies `20 ≤ p ≤ 199`; the cast of `bytes_written` to
`size_t` is at most 200, so the subtraction from `remaining_capacity` does not wrap; the
body is written at offset `p` with capacity `200 - p`, between 1 and 180, so that offset
plus capacity is 200; and neither write stores a byte, terminator included, beyond the 200
bytes of the message buffer, which keeps its size. -/
theorem body_stage_within_buffer (s : State) (id : Int) (file : List Char) (line : Int)
    (function fmt : List Char) (args : List Arg) (hs : s.sized)
    (hreach : reaches_body s id file line function) :
    ((head_call s id file line function).1
        = ((head_text id file line function).length : Int) ∧
      20 ≤ (head_text id file line function).length ∧
      (head_text id file line function).length ≤ 199) ∧
    ((to_size_t (head_call s id file line function).1 : Int)
        ≤ (LAST_ERROR_MESSAGE_BUFFER_CAPACITY : Int) ∧
      (body_capacity s id file line function : Int)
        = (LAST_ERROR_MESSAGE_BUFFER_CAPACITY : Int)
          - (to_size_t (head_call s id file line function).1 : Int)) ∧
    (body_offset s id file line function = (head_text id file line function).length ∧
      body_capacity s id file line function
        = 200 - (head_text id file line function).length ∧
      1 ≤ body_capacity s id file line function ∧
      body_capacity s id file line function ≤ 180 ∧
      body_offset s id file line function + body_capacity s id file line function
        = LAST_ERROR_MESSAGE_BUFFER_CAPACITY) ∧
    ((∀ out : List Char,
        0 + bytes_stored LAST_ERROR_MESSAGE_BUFFER_CAPACITY out
          ≤ LAST_ERROR_MESSAGE_BUFFER_CAPACITY) ∧
      (∀ out : List Char,
        body_offset s id file line function
          + bytes_stored (body_capacity s id file line function) out
          ≤ LAST_ERROR_MESSAGE_BUFFER_CAPACITY) ∧
      (head_call s id file line function).2.length = LAST_ERROR_MESSAGE_BUFFER_CAPACITY ∧
      (vsnprintf (head_call s id file line function).2 (body_offset s id file line function)
        (body_capacity s id file line function) fmt args).2.length
        = LAST_ERROR_MESSAGE_BUFFER_CAPACITY) ∧
    last_error_set s id file line function fmt args =
      if (vsnprintf (head_call s id file line function).2
            (body_offset s id file line function)
            (body_capacity s id file line function) fmt args).1 < 0 ∨
          to_size_t (vsnprintf (head_call s id file line function).2
            (body_offset s id file line function)
            (body_capacity s id file line function) fmt args).1
            ≥ body_capacity s id file line function then
        (0, { stored s id file line function with
          LAST_ERROR_MESSAGE :=
            (vsnprintf (head_call s id file line function).2
              (body_offset s id file line function)
              (body_capacity s id file line function) fmt args).2.set 0 NUL })
      else
        (1, { stored s id file line function with
          LAST_ERROR_MESSAGE :=
            (vsnprintf (head_call s id file line function).2
              (body_offset s id file line function)
              (body_capacity s id file line function) fmt args).2 }) := by
  have hp := (reaches_body_iff s id file line function).1 hreach
  have hge := head_text_length_ge id file line function
  have hm : s.LAST_ERROR_MESSAGE.length = 200 := hs.2.1
  have hstage : last_error_set s id file line function fmt args =
      if (vsnprintf (head_call s id file line function).2
            (body_offset s id file line function)
            (body_capacity s id file line function) fmt args).1 < 0 ∨
          to_size_t (vsnprintf (head_call s id file line function).2
            (body_offset s id file line function)
            (body_capacity s id file line function) fmt args).1
            ≥ body_capacity s id file line function then
        (0, { stored s id file line function with
          LAST_ERROR_MESSAGE :=
            (vsnprintf (head_call s id file line function).2
              (body_offset s id file line function)
              (body_capacity s id file line function) fmt args).2.set 0 NUL })
      else
        (1, { stored s id file line function with
          LAST_ERROR_MESSAGE :=
            (vsnprintf (head_call s id file line function).2
              (body_offset s id file line function)
              (body_capacity s id file line function) fmt args).2 }) := by
    have hreach2 : ¬ ((vsnprintf s.LAST_ERROR_MESSAGE 0 200 HEAD_FORMAT
          [Arg.long id, Arg.str file, Arg.long line, Arg.str function]).1 < 0 ∨
        to_size_t (vsnprintf s.LAST_ERROR_MESSAGE 0 200 HEAD_FORMAT
          [Arg.long id, Arg.str file, Arg.long line, Arg.str function]).1 ≥ 200) := hreach
    rw [last_error_set_def, if_neg hreach2]
    rfl
  have hoff : body_offset s id file line function
      = (head_text id file line function).length := by
    unfold body_offset
    rw [head_call_eq, printf_result_small (by omega)]
    exact Int.toNat_ofNat _
  have hcap : body_capacity s id file line function
      = 200 - (head_text id file line function).length := by
    unfold body_capacity
    rw [head_call_eq, printf_result_small (by omega), to_size_t_small (by omega)]
    exact remaining_eq (by omega)
  have hbw : (head_call s id file line function).1
      = ((head_text id file line function).length : Int) := by
    rw [head_call_eq, printf_result_small (by omega)]
  have hcast : to_size_t (head_call s id file line function).1
      = (head_text id file line function).length := by
    rw [hbw, to_size_t_small (by omega)]
  have hlen1 : (head_call s id file line function).2.length = 200 := by
    rw [head_call_eq]
    exact head_write_length _ _ hm
  generalize (head_text id file line function).length = p at *
  refine ⟨⟨hbw, by omega, hp⟩, ⟨?_, ?_⟩, ⟨hoff, hcap, ?_, ?_, ?_⟩, ⟨?_, ?_, hlen1, ?_⟩,
    hstage⟩
  · rw [hcast]
    unfold LAST_ERROR_MESSAGE_BUFFER_CAPACITY
    omega
  · rw [hcast, hcap]
    unfold LAST_ERROR_MESSAGE_BUFFER_CAPACITY
    omega
  · omega
  · omega
  · rw [hoff, hcap]
    unfold LAST_ERROR_MESSAGE_BUFFER_CAPACITY
    omega
  · intro out
    have := bytes_stored_le LAST_ERROR_MESSAGE_BUFFER_CAPACITY out
    omega
  · intro out
    have := bytes_stored_le (body_capacity s id file line function) out
    rw [hoff, hcap] at *
    unfold LAST_ERROR_MESSAGE_BUFFER_CAPACITY
    omega
  · rw [vsnprintf_length _ _ _ _ _ (by rw [hoff, hcap, hlen1]; omega), hlen1]
    rfl

/-- C18 at the call `last_error_set(10, "f.c", 1, "g", "%s", "x")` on the storage of
program start. -/
theorem body_stage_within_buffer_witness :
    (State.start.sized ∧ reaches_body State.start 10 "f.c".toList 1 "g".toList) ∧
    (((head_call State.start 10 "f.c".toList 1 "g".toList).1
        = ((head_text 10 "f.c".toList 1 "g".toList).length : Int) ∧
      20 ≤ (head_text 10 "f.c".toList 1 "g".toList).length ∧
      (head_text 10 "f.c".toList 1 "g".toList).length ≤ 199) ∧
    ((to_size_t (head_call State.start 10 "f.c".toList 1 "g".toList).1 : Int)
        ≤ (LAST_ERROR_MESSAGE_BUFFER_CAPACITY : Int) ∧
      (body_capacity State.start 10 "f.c".toList 1 "g".toList : Int)
        = (LAST_ERROR_MESSAGE_BUFFER_CAPACITY : Int)
          - (to_size_t (head_call State.start 10 "f.c".toList 1 "g".toList).1 : Int)) ∧
    (body_offset State.start 10 "f.c".toList 1 "g".toList =
      (head_text 10 "f.c".toList 1 "g".toList).length ∧
      body_capacity State.start 10 "f.c".toList 1 "g".toList
        = 200 - (head_text 10 "f.c".toList 1 "g".toList).length ∧
      1 ≤ body_capacity State.start 10 "f.c".toList 1 "g".toList ∧
      body_capacity State.start 10 "f.c".toList 1 "g".toList ≤ 180 ∧
      body_offset State.start 10 "f.c".toList 1 "g".toList
        + body_capacity State.start 10 "f.c".toList 1 "g".toList
        = LAST_ERROR_MESSAGE_BUFFER_CAPACITY) ∧
    ((∀ out : List Char,
        0 + bytes_stored LAST_ERROR_MESSAGE_BUFFER_CAPACITY out
          ≤ LAST_ERROR_MESSAGE_BUFFER_CAPACITY) ∧
      (∀ out : List Char,
        body_offset State.start 10 "f.c".toList 1 "g".toList
          + bytes_stored (body_capacity State.start 10 "f.c".toList 1 "g".toList) out
          ≤ LAST_ERROR_MESSAGE_BUFFER_CAPACITY) ∧
      (head_call State.start 10 "f.c".toList 1 "g".toList).2.length
        = LAST_ERROR_MESSAGE_BUFFER_CAPACITY ∧
      (vsnprintf (head_call State.start 10 "f.c".toList 1 "g".toList).2
        (body_offset State.start 10 "f.c".toList 1 "g".toList)
        (body_capacity State.start 10 "f.c".toList 1 "g".toList)
          "%s".toList [Arg.str "x".toList]).2.length
        = LAST_ERROR_MESSAGE_BUFFER_CAPACITY) ∧
    last_error_set State.start 10 "f.c".toList 1 "g".toList "%s".toList [Arg.str "x".toList] =
      if (vsnprintf (head_call State.start 10 "f.c".toList 1 "g".toList).2
            (body_offset State.start 10 "f.c".toList 1 "g".toList)
            (body_capacity State.start 10 "f.c".toList 1 "g".toList)
              "%s".toList [Arg.str "x".toList]).1 < 0 ∨
          to_size_t (vsnprintf (head_call State.start 10 "f.c".toList 1 "g".toList).2
            (body_offset State.start 10 "f.c".toList 1 "g".toList)
            (body_capacity State.start 10 "f.c".toList 1 "g".toList)
              "%s".toList [Arg.str "x".toList]).1
            ≥ body_capacity State.start 10 "f.c".toList 1 "g".toList then
        (0, { stored State.start 10 "f.c".toList 1 "g".toList with
          LAST_ERROR_MESSAGE :=
            (vsnprintf (head_call State.start 10 "f.c".toList 1 "g".toList).2
              (body_offset State.start 10 "f.c".toList 1 "g".toList)
              (body_capacity State.start 10 "f.c".toList 1 "g".toList)
                "%s".toList [Arg.str "x".toList]).2.set 0 NUL })
      else
        (1, { stored State.start 10 "f.c".toList 1 "g".toList with
          LAST_ERROR_MESSAGE :=
            (vsnprintf (head_call State.start 10 "f.c".toList 1 "g".toList).2
              (body_offset State.start 10 "f.c".toList 1 "g".toList)
              (body_capacity State.start 10 "f.c".toList 1 "g".toList)
                "%s".toList [Arg.str "x".toList]).2 })) :=
  have hr : reaches_body State.start 10 "f.c".toList 1 "g".toList :=
    (reaches_body_iff State.start 10 "f.c".toList 1 "g".toList).2
      (by simp [head_text, fmt_int, decimal, cstr, NUL])
  ⟨⟨state_start_sized, hr⟩, body_stage_within_buffer State.start 10 "f.c".toList 1
    "g".toList "%s".toList [Arg.str "x".toList] state_start_sized hr⟩

end ErrorReporting
